import Mathlib

/-!
# Prepared-statement binding layer (`src/mysql_bindings_statement.cc`)

A shallow embedding of `MysqlStatement`: the handle state, the parameter
binder (`BindParamsSync`), the result marshaller (`FetchAllSync`), the
lifecycle operations and the destructor, followed by the properties proved
about them.

Conventions of the embedding.

* The native client library is an external collaborator.  What it answers
  during one operation is given by a `Native` record, and every native call an
  operation makes is appended to the `calls` trace of the resulting `Step`.
* A C++ operation ends in one of three ways (`Outcome`): it returns a script
  value, it throws (`THREXC`), or it performs an invalid memory access
  (dereference of `NULL`, use of a released array).
* The `REQ_*_ARG` argument macros are defined in a header that is not among the
  sources; each operation of the embedding starts from the values those macros
  bind.
* The state guards `MYSQLSTMT_MUSTBE_*` are defined in a header that is not
  among the sources; they are modelled from the specification.
-/

namespace MysqlStmt

/-! ## Script values as seen through the V8 API -/

/-- An ECMAScript number.  Every IEEE-754 double is one of: a finite value other
than negative zero (a rational), negative zero, NaN, or an infinity. -/
inductive JsNumber
  | finite (q : ℚ)
  | negZero
  | nan
  | posInf
  | negInf
deriving DecidableEq

/-- The values `BindParamsSync` can find in its argument array.
`date none` is an Invalid Date (time value NaN); `date (some m)` has the
time value `m` milliseconds.  `object text` is any other value (object,
array, function, wrapper object) whose `ToString()` is `text`. -/
inductive JsValue
  | undefined
  | null
  | boolean (b : Bool)
  | number (x : JsNumber)
  | date (timeValue : Option Int)
  | string (s : String)
  | object (text : String)
deriving DecidableEq

namespace JsNumber

/-- The value is integral and lies in the signed 32-bit range (negative zero is
not an Int32 for V8). -/
def isInt32 : JsNumber → Bool
  | finite q => q.isInt && decide (-2147483648 ≤ q.num) && decide (q.num ≤ 2147483647)
  | _ => false

/-- The value is integral and lies in the unsigned 32-bit range. -/
def isUint32 : JsNumber → Bool
  | finite q => q.isInt && decide (0 ≤ q.num) && decide (q.num ≤ 4294967295)
  | _ => false

/-- Truncation toward zero of a finite value; zero for NaN and the infinities
(the first step of ECMAScript ToInt32 / ToUint32). -/
def truncate : JsNumber → Int
  | finite q => Int.tdiv q.num q.den
  | _ => 0

/-- ECMAScript ToUint32: truncate, then reduce modulo 2^32. -/
def toUint32 (x : JsNumber) : Nat := (x.truncate % 4294967296).toNat

/-- ECMAScript ToInt32: ToUint32 read as a two-complement 32-bit integer. -/
def toInt32 (x : JsNumber) : Int :=
  if x.toUint32 < 2147483648 then (x.toUint32 : Int) else (x.toUint32 : Int) - 4294967296

/-- The comparison `x < 0` of C++ doubles (false for NaN and for both zeros). -/
def ltZero : JsNumber → Bool
  | finite q => decide (q < 0)
  | negInf => true
  | _ => false

end JsNumber

namespace JsValue

def IsUndefined : JsValue → Bool
  | undefined => true
  | _ => false

def IsNull : JsValue → Bool
  | null => true
  | _ => false

def IsInt32 : JsValue → Bool
  | number x => x.isInt32
  | _ => false

def IsBoolean : JsValue → Bool
  | boolean _ => true
  | _ => false

def IsUint32 : JsValue → Bool
  | number x => x.isUint32
  | _ => false

def IsNumber : JsValue → Bool
  | number _ => true
  | _ => false

def IsDate : JsValue → Bool
  | date _ => true
  | _ => false

/-- The call `BooleanValue()` (ECMAScript ToBoolean). -/
def BooleanValue : JsValue → Bool
  | undefined => false
  | null => false
  | boolean b => b
  | number (.finite q) => decide (q ≠ 0)
  | number .negZero => false
  | number .nan => false
  | number _ => true
  | date _ => true
  | string s => decide (s ≠ "")
  | object _ => true

/-- The call `NumberValue()` (ECMAScript ToNumber).  A Date converts to its time
value.  The conversion of a string or of another object goes through number
parsing or `valueOf`, which is outside this model (NaN stands for it); the
binding code converts numbers and dates only. -/
def NumberValue : JsValue → JsNumber
  | undefined => .nan
  | null => .finite 0
  | boolean b => .finite (if b then 1 else 0)
  | number x => x
  | date none => .nan
  | date (some m) => .finite m
  | string _ => .nan
  | object _ => .nan

def Int32Value (v : JsValue) : Int := v.NumberValue.toInt32

def Uint32Value (v : JsValue) : Nat := v.NumberValue.toUint32

/-- The call `ToString()`.  The textual form of a number or of a Date (number
formatting, local-time rendering) is outside this model (the empty text stands
for it); the binding code takes the textual form of the remaining values only. -/
def ToString : JsValue → String
  | undefined => "undefined"
  | null => "null"
  | boolean b => if b then "true" else "false"
  | number _ => ""
  | date _ => ""
  | string s => s
  | object text => text

end JsValue

/-! ## Text: UTF-16 length, UTF-8 bytes, C strings -/

/-- UTF-8 encoding of one code point, as a list of byte values. -/
def utf8EncodeChar (c : Nat) : List Nat :=
  if c < 128 then [c]
  else if c < 2048 then [192 + c / 64, 128 + c % 64]
  else if c < 65536 then [224 + c / 4096, 128 + (c / 64) % 64, 128 + c % 64]
  else [240 + c / 262144, 128 + (c / 4096) % 64, 128 + (c / 64) % 64, 128 + c % 64]

/-- The bytes `String::Utf8Value` holds for a script string. -/
def Utf8Value (s : String) : List Nat :=
  (s.toList.map (fun c => utf8EncodeChar c.toNat)).flatten

/-- The call `String::Utf8Length()`. -/
def Utf8Length (s : String) : Nat := (Utf8Value s).length

/-- The call `String::Length()`: the number of UTF-16 code units. -/
def Length (s : String) : Nat :=
  (s.toList.map (fun c => if c.toNat < 65536 then 1 else 2)).sum

/-- The function `strdup`: the copy stops at the first NUL byte. -/
def strdup (bytes : List Nat) : List Nat := bytes.takeWhile (fun b => b != 0)

/-! ## Calendar conversion (`gmtime_r`) -/

/-- The fields of `struct tm` the binding code reads. -/
structure tm where
  tm_sec : Int
  tm_min : Int
  tm_hour : Int
  tm_mday : Int
  tm_mon : Int
  tm_year : Int
deriving DecidableEq

/-- Proleptic Gregorian (year, month 1..12, day 1..31) of a day number counted
from 1970-01-01. -/
def civilFromDays (days : Int) : Int × Int × Int :=
  let z := days + 719468
  let era := z / 146097
  let doe := z - era * 146097
  let yoe := (doe - doe / 1460 + doe / 36524 - doe / 146096) / 365
  let doy := doe - (365 * yoe + yoe / 4 - yoe / 100)
  let mp := (5 * doy + 2) / 153
  let d := doy - (153 * mp + 2) / 5 + 1
  let m := if mp < 10 then mp + 3 else mp - 9
  let y := yoe + era * 400 + (if m ≤ 2 then 1 else 0)
  (y, m, d)

/-- The libc call `gmtime_r`: broken-down UTC time of `t` seconds since the
epoch; it fails (returns `NULL`, `EOVERFLOW`) when the year does not fit the
`int` field `tm_year`. -/
def gmtime_r (t : Int) : Option tm :=
  let days := t / 86400
  let rem := t % 86400
  let ymd := civilFromDays days
  let tm_year := ymd.1 - 1900
  if -2147483648 ≤ tm_year ∧ tm_year ≤ 2147483647 then
    some { tm_sec := rem % 60, tm_min := (rem / 60) % 60, tm_hour := rem / 3600,
           tm_mday := ymd.2.2, tm_mon := ymd.2.1 - 1, tm_year := tm_year }
  else none

/-- The conversion `static_cast<time_t>(x / 1000)` of a double to the 64-bit
`time_t`: truncation toward zero.  For the integral time values of Date objects
(at most 8.64e15 in magnitude) the rounded double quotient truncates to the
same integer as the exact quotient.  For NaN, an infinity or a quotient outside
the 64-bit range the C++ standard leaves the result undefined; `castNaN` is
what the platform produces there (x86-64: the most negative 64-bit integer). -/
def timeT_of (castNaN : Int) : JsNumber → Int
  | .finite q =>
    let t := Int.tdiv q.num (q.den * 1000)
    if -9223372036854775808 ≤ t ∧ t ≤ 9223372036854775807 then t else castNaN
  | .negZero => 0
  | _ => castNaN

/-- The x86-64 result of converting NaN to a 64-bit integer. -/
def castNaN_x86_64 : Int := -9223372036854775808

/-! ## Native data structures -/

/-- The column and buffer type tags of the client library (`enum_field_types`),
in declaration order; `MYSQL_TYPE_DECIMAL` has the numeric value 0. -/
inductive enum_field_types
  | MYSQL_TYPE_DECIMAL
  | MYSQL_TYPE_TINY
  | MYSQL_TYPE_SHORT
  | MYSQL_TYPE_LONG
  | MYSQL_TYPE_FLOAT
  | MYSQL_TYPE_DOUBLE
  | MYSQL_TYPE_NULL
  | MYSQL_TYPE_TIMESTAMP
  | MYSQL_TYPE_LONGLONG
  | MYSQL_TYPE_INT24
  | MYSQL_TYPE_DATE
  | MYSQL_TYPE_TIME
  | MYSQL_TYPE_DATETIME
  | MYSQL_TYPE_YEAR
  | MYSQL_TYPE_NEWDATE
  | MYSQL_TYPE_VARCHAR
  | MYSQL_TYPE_BIT
  | MYSQL_TYPE_NEWDECIMAL
  | MYSQL_TYPE_ENUM
  | MYSQL_TYPE_SET
  | MYSQL_TYPE_TINY_BLOB
  | MYSQL_TYPE_MEDIUM_BLOB
  | MYSQL_TYPE_LONG_BLOB
  | MYSQL_TYPE_BLOB
  | MYSQL_TYPE_VAR_STRING
  | MYSQL_TYPE_STRING
  | MYSQL_TYPE_GEOMETRY
deriving DecidableEq

open enum_field_types

/-- The calendar fields of `MYSQL_TIME` the code assigns (all `unsigned int`);
the remaining members are left as `new MYSQL_TIME` found them. -/
structure MYSQL_TIME where
  year : Nat
  month : Nat
  day : Nat
  hour : Nat
  minute : Nat
  second : Nat
deriving DecidableEq

/-- What the `buffer` pointer of a parameter slot points to. -/
inductive Buffer
  | NULL
  | int (v : Int)
  | unsigned_int (v : Nat)
  | double (x : JsNumber)
  | MYSQL_TIME (t : MYSQL_TIME)
  | chars (bytes : List Nat)
deriving DecidableEq

/-- The members of `MYSQL_BIND` that `BindParamsSync` assigns.  `is_null` and
`length` are pointers: `none` is the null pointer, `length = some n` points to
an `unsigned long` holding `n`. -/
structure MYSQL_BIND where
  buffer_type : enum_field_types
  buffer : Buffer
  is_null : Option Bool
  is_unsigned : Bool
  length : Option Nat
deriving DecidableEq

/-- A slot as `memset(.., 0, ..)` leaves it. -/
def MYSQL_BIND.zero : MYSQL_BIND :=
  { buffer_type := MYSQL_TYPE_DECIMAL, buffer := .NULL, is_null := none,
    is_unsigned := false, length := none }

/-- The member `binds` of the handle: a null pointer, a pointer to a live array
obtained from `new MYSQL_BIND[n]`, or a pointer still holding the address of an
array that `delete[]` has released. -/
inductive BindArray
  | NULL
  | live (slots : List MYSQL_BIND)
  | released
deriving DecidableEq

/-- The write `binds[i].member = ...`: defined on a live array within bounds. -/
def BindArray.assign (binds : BindArray) (i : Nat) (f : MYSQL_BIND → MYSQL_BIND) :
    Option BindArray :=
  match binds with
  | .live slots => if i < slots.length then some (.live (slots.modify f i)) else none
  | _ => none

/-- The object `MysqlStatement`. -/
structure MysqlStatement where
  _stmt : Option Nat
  binds : BindArray
  param_count : Nat
  prepared : Bool
  stored : Bool
deriving DecidableEq

/-- The constructor `MysqlStatement::MysqlStatement(MYSQL_STMT *my_stmt)`. -/
def MysqlStatement.new (my_stmt : Option Nat) : MysqlStatement :=
  { _stmt := my_stmt, binds := .NULL, param_count := 0, prepared := false, stored := false }

/-! ## Results of an operation -/

inductive JsError
  | notInitialized
  | notPrepared
  | notStored
  | exception (message : String)
deriving DecidableEq

/-- Script values the operations build. -/
inductive Value
  | Empty
  | Undefined
  | Null
  | Boolean (b : Bool)
  | Integer (n : Int)
  | Number (x : JsNumber)
  | NumberText (x : JsNumber)
  | String (s : String)
  | Utf8 (bytes : List Nat)
  | Date (ms : Int)
deriving DecidableEq

/-- One fetched row: column name and value, in column order. -/
abbrev Row := List (String × Value)

/-- A column of the result metadata (`MYSQL_FIELD`): name, type, declared length. -/
structure MYSQL_FIELD where
  name : String
  type : enum_field_types
  length : Nat
deriving DecidableEq

inductive Returned
  | value (v : Value)
  | Array (rows : List Row)
  | MysqlResult (fields : List MYSQL_FIELD) (field_count : Int)
deriving DecidableEq

/-- Invalid accesses: a read through a null pointer, a read outside an array,
a second `delete[]` of the same array, the use of an empty handle as a value. -/
inductive Fault
  | nullDereference
  | outOfBounds
  | doubleDelete
  | emptyHandle
deriving DecidableEq

inductive Outcome
  | returned (r : Returned)
  | thrown (e : JsError)
  | fault (f : Fault)
deriving DecidableEq

/-- Which scratch array an output bind points into (`&int_data[i]`, ...). -/
inductive Scratch
  | NULL
  | int_data
  | tiny_data
  | double_data
  | str_data
  | date_data
deriving DecidableEq

/-- The members of an output `MYSQL_BIND` that `FetchAllSync` assigns for
column `i`; `is_null` and `length` always point to `is_null[i]` and `length[i]`. -/
structure ResultBind where
  buffer_type : enum_field_types
  buffer : Scratch
  buffer_length : Nat
deriving DecidableEq

/-- The calls into the client library, with the arguments the wrapper passes. -/
inductive NativeCall
  | mysql_stmt_affected_rows
  | mysql_stmt_attr_get (attr_key : Int)
  | mysql_stmt_attr_set_bool (attr_key : Int) (v : Bool)
  | mysql_stmt_attr_set_uint (attr_key : Int) (v : Nat)
  | mysql_stmt_bind_param (binds : BindArray)
  | mysql_stmt_close
  | mysql_stmt_num_rows
  | mysql_stmt_data_seek (offset : Nat)
  | mysql_stmt_errno
  | mysql_stmt_error
  | mysql_stmt_execute
  | mysql_stmt_field_count
  | mysql_stmt_result_metadata
  | mysql_stmt_bind_result (bind : List ResultBind)
  | mysql_stmt_store_result
  | mysql_stmt_fetch
  | mysql_stmt_free_result
  | mysql_stmt_insert_id
  | mysql_stmt_prepare (query : List Nat) (query_len : Nat)
  | mysql_stmt_param_count
  | mysql_stmt_reset
  | mysql_stmt_send_long_data (parameter_number : Nat) (data : List Nat) (length : Nat)
  | mysql_stmt_sqlstate
deriving DecidableEq

/-- What the operation leaves behind: how it ended, the handle afterwards, and
the native calls it made, in order. -/
structure Step where
  outcome : Outcome
  stmt : MysqlStatement
  calls : List NativeCall
deriving DecidableEq

/-- The scratch memory of one output column as a fetch leaves it.  `tiny_data`
is the byte stored in the `signed char`; `str_data` are the bytes found from the
start of the column scratch row; `length` is `length[j]`. -/
structure Cell where
  int_data : Int
  tiny_data : Nat
  double_data : JsNumber
  str_data : List Nat
  date_data : MYSQL_TIME
  length : Nat

/-- The answers of the client library (and of libc `mktime`) during one
operation.  Return codes are zero on success.  `result_metadata = none` is
the `NULL` the library returns for a statement without a result set.
`fetched` lists, for every `mysql_stmt_fetch` that does not answer
`MYSQL_NO_DATA`, the column scratch memory after it; the call after the last
one answers `MYSQL_NO_DATA`. -/
structure Native where
  mysql_stmt_affected_rows : Nat
  mysql_stmt_attr_get : Nat
  attr_value : Nat
  mysql_stmt_attr_set : Nat
  mysql_stmt_bind_param : Nat
  mysql_stmt_close : Nat
  mysql_stmt_num_rows : Nat
  mysql_stmt_errno : Nat
  mysql_stmt_error : String
  mysql_stmt_execute : Nat
  mysql_stmt_field_count : Nat
  mysql_stmt_result_metadata : Option (List MYSQL_FIELD)
  mysql_stmt_bind_result : Nat
  mysql_stmt_store_result : Nat
  fetched : List (Nat → Cell)
  mktime : MYSQL_TIME → Int
  mysql_stmt_free_result : Nat
  mysql_stmt_insert_id : Nat
  mysql_stmt_prepare : Nat
  mysql_stmt_param_count : Nat
  mysql_stmt_reset : Nat
  mysql_stmt_send_long_data : Nat
  mysql_stmt_sqlstate : String

/-! ## Machine-integer conversions -/

/-- Conversion of an integer to `int32_t` (two-complement wrap). -/
def int32_of (n : Int) : Int :=
  if n % 4294967296 < 2147483648 then n % 4294967296 else n % 4294967296 - 4294967296

/-- Conversion of an integer to `uint32_t` / `unsigned int`. -/
def uint32_of (n : Int) : Nat := (n % 4294967296).toNat

/-- The value of a `signed char` holding the byte `b`. -/
def signed_char (b : Nat) : Int :=
  if b % 256 < 128 then ((b % 256 : Nat) : Int) else ((b % 256 : Nat) : Int) - 256

/-! ## State guards -/

/-- Modelled from the spec: the guard `MYSQLSTMT_MUSTBE_INITIALIZED` is defined
in a header that is not among the sources.  The
specification says that after the native resource is released "subsequent
operations on the handle must fail with the not-initialized condition"; the
resource pointer `_stmt` is `NULL` exactly then. -/
def MYSQLSTMT_MUSTBE_INITIALIZED (stmt : MysqlStatement) : Option JsError :=
  if stmt._stmt.isNone then some .notInitialized else none

/-- Modelled from the spec: the guard `MYSQLSTMT_MUSTBE_PREPARED` is defined in
the same header.  An operation invoked before its required lifecycle state is
a raised contract error; the state it checks is the `prepared` flag. -/
def MYSQLSTMT_MUSTBE_PREPARED (stmt : MysqlStatement) : Option JsError :=
  if stmt.prepared then none else some .notPrepared

/-- Modelled from the spec: the guard `MYSQLSTMT_MUSTBE_STORED` is defined in
the same header.  Row count and seek "require a stored result"; the state it
checks is the `stored` flag. -/
def MYSQLSTMT_MUSTBE_STORED (stmt : MysqlStatement) : Option JsError :=
  if stmt.stored then none else some .notStored

/-- An operation that stops at a failed guard: it throws, the handle is
untouched and no native call has been made. -/
def Step.guardFailed (e : JsError) (stmt : MysqlStatement) : Step :=
  { outcome := .thrown e, stmt := stmt, calls := [] }

/-- The guards shared by most operations, in source order. -/
def initializedAndPrepared (stmt : MysqlStatement) : Option JsError :=
  match MYSQLSTMT_MUSTBE_INITIALIZED stmt with
  | some e => some e
  | none => MYSQLSTMT_MUSTBE_PREPARED stmt

/-! ## `MysqlStatement::BindParamsSync` -/

/-- The body of the binding loop for one element: either the exception it
throws or the member assignments it performs on `stmt->binds[i]`. -/
def bindParam (castNaN : Int) (js_param : JsValue) : Except JsError (MYSQL_BIND → MYSQL_BIND) :=
  if js_param.IsUndefined then
    .error (.exception "All arguments must be defined")
  else if js_param.IsNull then
    .ok fun b => { b with buffer_type := MYSQL_TYPE_NULL, buffer := .int 0, is_null := none }
  else if js_param.IsInt32 then
    .ok fun b => { b with buffer_type := MYSQL_TYPE_LONG, buffer := .int js_param.Int32Value,
                          is_null := none, is_unsigned := false }
  else if js_param.IsBoolean then
    .ok fun b => { b with buffer_type := MYSQL_TYPE_TINY,
                          buffer := .int (if js_param.BooleanValue then 1 else 0),
                          is_null := none, is_unsigned := false }
  else if js_param.IsUint32 then
    .ok fun b => { b with buffer_type := MYSQL_TYPE_LONG,
                          buffer := .unsigned_int js_param.Uint32Value,
                          is_null := none, is_unsigned := true }
  else if js_param.IsNumber then
    .ok fun b => { b with buffer_type := MYSQL_TYPE_DOUBLE,
                          buffer := .double js_param.NumberValue, is_null := none }
  else if js_param.IsDate then
    match gmtime_r (timeT_of castNaN js_param.NumberValue) with
    | none => .error (.exception "Error occured in gmtime_r()")
    | some date_timeinfo =>
      .ok fun b => { b with buffer_type := MYSQL_TYPE_DATETIME,
                            buffer := .MYSQL_TIME
                              { year := uint32_of (date_timeinfo.tm_year + 1900),
                                month := uint32_of (date_timeinfo.tm_mon + 1),
                                day := uint32_of date_timeinfo.tm_mday,
                                hour := uint32_of date_timeinfo.tm_hour,
                                minute := uint32_of date_timeinfo.tm_min,
                                second := uint32_of date_timeinfo.tm_sec },
                            is_null := none }
  else
    .ok fun b => { b with buffer_type := MYSQL_TYPE_STRING,
                          buffer := .chars (strdup (Utf8Value js_param.ToString)),
                          is_null := none,
                          length := some (Length js_param.ToString) }

/-- The loop `for (i = 0; i < js_params->Length(); i++)`, from index `i` on:
how it ends early (`some`), or `none` when it runs to completion, together
with the slot array as the loop leaves it. -/
def bindParamsLoop (castNaN : Int) : List JsValue → Nat → BindArray → Option Outcome × BindArray
  | [], _, binds => (none, binds)
  | js_param :: rest, i, binds =>
    match bindParam castNaN js_param with
    | .error e => (some (.thrown e), binds)
    | .ok assignments =>
      match binds.assign i assignments with
      | none => (some (.fault .outOfBounds), binds)
      | some binds1 => bindParamsLoop castNaN rest (i + 1) binds1

def BindParamsSync (n : Native) (castNaN : Int) (stmt : MysqlStatement)
    (js_params : List JsValue) : Step :=
  match initializedAndPrepared stmt with
  | some e => Step.guardFailed e stmt
  | none =>
    if js_params.length ≠ stmt.param_count then
      { outcome := .thrown (.exception
          "Array length doesn't match number of parameters in prepared statement"),
        stmt := stmt, calls := [] }
    else
      match bindParamsLoop castNaN js_params 0 stmt.binds with
      | (some out, binds) => { outcome := out, stmt := { stmt with binds := binds }, calls := [] }
      | (none, binds) =>
        { outcome := .returned (.value (.Boolean (n.mysql_stmt_bind_param == 0))),
          stmt := { stmt with binds := binds },
          calls := [.mysql_stmt_bind_param binds] }

/-! ## Lifecycle operations -/

def CloseSync (n : Native) (stmt : MysqlStatement) : Step :=
  match MYSQLSTMT_MUSTBE_INITIALIZED stmt with
  | some e => Step.guardFailed e stmt
  | none =>
    if n.mysql_stmt_close ≠ 0 then
      { outcome := .returned (.value (.Boolean false)), stmt := stmt,
        calls := [.mysql_stmt_close] }
    else
      { outcome := .returned (.value (.Boolean true)), stmt := { stmt with _stmt := none },
        calls := [.mysql_stmt_close] }

/-- The statement `if (stmt->binds) delete[] stmt->binds;` of `PrepareSync`: the
member keeps the address it held.  Deleting an already released array is an
invalid access. -/
def deleteBinds : BindArray → Option BindArray
  | .NULL => some .NULL
  | .live _ => some .released
  | .released => none

def PrepareSync (n : Native) (stmt : MysqlStatement) (query : String) : Step :=
  match MYSQLSTMT_MUSTBE_INITIALIZED stmt with
  | some e => Step.guardFailed e stmt
  | none =>
    let stmt0 := { stmt with prepared := false }
    let prepare := NativeCall.mysql_stmt_prepare (Utf8Value query) (Utf8Length query)
    if n.mysql_stmt_prepare ≠ 0 then
      { outcome := .returned (.value (.Boolean false)), stmt := stmt0, calls := [prepare] }
    else
      match deleteBinds stmt0.binds with
      | none => { outcome := .fault .doubleDelete, stmt := stmt0, calls := [prepare] }
      | some binds0 =>
        let param_count := n.mysql_stmt_param_count
        let binds1 :=
          if param_count > 0 then BindArray.live (List.replicate param_count MYSQL_BIND.zero)
          else binds0
        { outcome := .returned (.value (.Boolean true)),
          stmt := { stmt0 with binds := binds1, param_count := param_count, prepared := true },
          calls := [prepare, .mysql_stmt_param_count] }

def ExecuteSync (n : Native) (stmt : MysqlStatement) : Step :=
  match initializedAndPrepared stmt with
  | some e => Step.guardFailed e stmt
  | none =>
    { outcome := .returned (.value (.Boolean (n.mysql_stmt_execute == 0))), stmt := stmt,
      calls := [.mysql_stmt_execute] }

def ResetSync (n : Native) (stmt : MysqlStatement) : Step :=
  match initializedAndPrepared stmt with
  | some e => Step.guardFailed e stmt
  | none =>
    { outcome := .returned (.value (.Boolean (n.mysql_stmt_reset == 0))), stmt := stmt,
      calls := [.mysql_stmt_reset] }

def StoreResultSync (n : Native) (stmt : MysqlStatement) : Step :=
  match initializedAndPrepared stmt with
  | some e => Step.guardFailed e stmt
  | none =>
    if n.mysql_stmt_store_result ≠ 0 then
      { outcome := .returned (.value (.Boolean false)), stmt := stmt,
        calls := [.mysql_stmt_store_result] }
    else
      { outcome := .returned (.value (.Boolean true)), stmt := { stmt with stored := true },
        calls := [.mysql_stmt_store_result] }

def FreeResultSync (n : Native) (stmt : MysqlStatement) : Step :=
  match MYSQLSTMT_MUSTBE_INITIALIZED stmt with
  | some e => Step.guardFailed e stmt
  | none =>
    { outcome := .returned (.value (.Boolean (n.mysql_stmt_free_result == 0))), stmt := stmt,
      calls := [.mysql_stmt_free_result] }

def NumRowsSync (n : Native) (stmt : MysqlStatement) : Step :=
  match initializedAndPrepared stmt with
  | some e => Step.guardFailed e stmt
  | none =>
    match MYSQLSTMT_MUSTBE_STORED stmt with
    | some e => Step.guardFailed e stmt
    | none =>
      { outcome := .returned (.value (.Integer (int32_of n.mysql_stmt_num_rows))), stmt := stmt,
        calls := [.mysql_stmt_num_rows] }

/-- The operation `DataSeekSync`.  `offset_double` is what `REQ_NUMBER_ARG(0, ..)`
binds and `offset_uint` what `REQ_UINT_ARG(0, ..)` binds, both from argument 0:
for a number argument `x` these are `x` itself and `x.toUint32` (the conversion
`Uint32Value()`).  The variable `offset_uint` is a 32-bit unsigned, so whatever
value is bound is held modulo 2^32.  The test
`offset_double < 0 || offset_uint >= mysql_stmt_num_rows(..)` short-circuits, so
a negative offset never asks for the row count. -/
def DataSeekSync (n : Native) (stmt : MysqlStatement) (offset_double : JsNumber)
    (offset_uint : Nat) : Step :=
  match initializedAndPrepared stmt with
  | some e => Step.guardFailed e stmt
  | none =>
    match MYSQLSTMT_MUSTBE_STORED stmt with
    | some e => Step.guardFailed e stmt
    | none =>
      if offset_double.ltZero then
        { outcome := .thrown (.exception "Invalid row offset"), stmt := stmt, calls := [] }
      else if offset_uint % 4294967296 ≥ n.mysql_stmt_num_rows then
        { outcome := .thrown (.exception "Invalid row offset"), stmt := stmt,
          calls := [.mysql_stmt_num_rows] }
      else
        { outcome := .returned (.value .Undefined), stmt := stmt,
          calls := [.mysql_stmt_num_rows, .mysql_stmt_data_seek (offset_uint % 4294967296)] }

/-! ## `MysqlStatement::FetchAllSync` -/

/-- The first `switch (fields[i].type)`: the output bind of one column.  A type
outside the listed cases leaves the zeroed bind without a buffer. -/
def resultBind (field : MYSQL_FIELD) : ResultBind :=
  match field.type with
  | MYSQL_TYPE_NULL | MYSQL_TYPE_SHORT | MYSQL_TYPE_LONG | MYSQL_TYPE_LONGLONG
  | MYSQL_TYPE_INT24 =>
    { buffer_type := field.type, buffer := .int_data, buffer_length := 0 }
  | MYSQL_TYPE_TINY =>
    { buffer_type := field.type, buffer := .tiny_data, buffer_length := 0 }
  | MYSQL_TYPE_FLOAT | MYSQL_TYPE_DOUBLE | MYSQL_TYPE_DECIMAL | MYSQL_TYPE_NEWDECIMAL =>
    { buffer_type := field.type, buffer := .double_data, buffer_length := 0 }
  | MYSQL_TYPE_STRING | MYSQL_TYPE_VAR_STRING | MYSQL_TYPE_VARCHAR =>
    { buffer_type := field.type, buffer := .str_data, buffer_length := field.length }
  | MYSQL_TYPE_YEAR | MYSQL_TYPE_DATE | MYSQL_TYPE_NEWDATE | MYSQL_TYPE_TIME
  | MYSQL_TYPE_DATETIME | MYSQL_TYPE_TIMESTAMP =>
    { buffer_type := field.type, buffer := .date_data, buffer_length := 0 }
  | _ => { buffer_type := field.type, buffer := .NULL, buffer_length := 0 }

/-- The second `switch (fields[j].type)`: the script value produced for one
column of one fetched row.  `js_result` is the variable as the previous column
left it; a type outside the listed cases does not assign it. -/
def columnValue (mktime : MYSQL_TIME → Int) (type : enum_field_types) (cell : Cell)
    (js_result : Value) : Value :=
  match type with
  | MYSQL_TYPE_NULL | MYSQL_TYPE_SHORT | MYSQL_TYPE_LONG | MYSQL_TYPE_LONGLONG
  | MYSQL_TYPE_INT24 => .Integer cell.int_data
  | MYSQL_TYPE_TINY =>
    if cell.length = 1 then .Boolean (decide (signed_char cell.tiny_data ≠ 0))
    else .Integer (uint32_of (signed_char cell.tiny_data))
  | MYSQL_TYPE_FLOAT | MYSQL_TYPE_DOUBLE => .Number cell.double_data
  | MYSQL_TYPE_DECIMAL | MYSQL_TYPE_NEWDECIMAL => .NumberText cell.double_data
  | MYSQL_TYPE_STRING | MYSQL_TYPE_VAR_STRING | MYSQL_TYPE_VARCHAR =>
    .Utf8 (cell.str_data.take cell.length)
  | MYSQL_TYPE_YEAR | MYSQL_TYPE_DATE | MYSQL_TYPE_NEWDATE | MYSQL_TYPE_TIME
  | MYSQL_TYPE_DATETIME | MYSQL_TYPE_TIMESTAMP => .Date (1000 * mktime cell.date_data)
  | _ => js_result

/-- The inner loop `while (j < field_count)` from column `j` on: the
`Set(name, js_result)` calls of one row, and `js_result` afterwards.  While no
column has assigned `js_result` it is the empty handle, and `Set` cannot take
the empty handle as a value: the result is `none` then. -/
def fetchRow (mktime : MYSQL_TIME → Int) (cells : Nat → Cell) :
    List MYSQL_FIELD → Nat → Value → Option (Row × Value)
  | [], _, js_result => some ([], js_result)
  | field :: rest, j, js_result =>
    let v := columnValue mktime field.type (cells j) js_result
    if v = .Empty then none
    else (fetchRow mktime cells rest (j + 1) v).map (fun r => ((field.name, v) :: r.1, r.2))

/-- The outer loop `while (mysql_stmt_fetch(..) != MYSQL_NO_DATA)`: the rows
built (`none` when a row ran into the empty handle) and the number of
`mysql_stmt_fetch` calls made. -/
def fetchLoop (mktime : MYSQL_TIME → Int) (columns : List MYSQL_FIELD) :
    List (Nat → Cell) → Value → Option (List Row) × Nat
  | [], _ => (some [], 1)
  | cells :: rest, js_result =>
    match fetchRow mktime cells columns 0 js_result with
    | none => (none, 1)
    | some r =>
      ((fetchLoop mktime columns rest r.2).1.map (fun rows => r.1 :: rows),
       (fetchLoop mktime columns rest r.2).2 + 1)

/-- The operation `FetchAllSync`.  The statement `fields = meta->fields` reads
through `meta` without a test; the loops read `fields[i]` for every
`i < field_count`. -/
def FetchAllSync (n : Native) (stmt : MysqlStatement) : Step :=
  match initializedAndPrepared stmt with
  | some e => Step.guardFailed e stmt
  | none =>
    let field_count := n.mysql_stmt_field_count
    match n.mysql_stmt_result_metadata with
    | none =>
      { outcome := .fault .nullDereference, stmt := stmt,
        calls := [.mysql_stmt_field_count, .mysql_stmt_result_metadata] }
    | some fields =>
      if fields.length < field_count then
        { outcome := .fault .outOfBounds, stmt := stmt,
          calls := [.mysql_stmt_field_count, .mysql_stmt_result_metadata] }
      else
        let columns := fields.take field_count
        let bind := columns.map resultBind
        let calls1 := [NativeCall.mysql_stmt_field_count, .mysql_stmt_result_metadata,
                       .mysql_stmt_bind_result bind]
        if n.mysql_stmt_bind_result ≠ 0 then
          { outcome := .returned (.value .Null), stmt := stmt, calls := calls1 }
        else if n.mysql_stmt_store_result ≠ 0 then
          { outcome := .returned (.value .Null), stmt := stmt,
            calls := calls1 ++ [.mysql_stmt_store_result] }
        else
          let row_count := int32_of n.mysql_stmt_num_rows
          let calls2 := calls1 ++ [.mysql_stmt_store_result, .mysql_stmt_num_rows]
          if row_count = 0 then
            { outcome := .returned (.Array []), stmt := stmt, calls := calls2 }
          else
            { outcome :=
                match (fetchLoop n.mktime columns n.fetched .Empty).1 with
                | none => .fault .emptyHandle
                | some rows => .returned (.Array rows),
              stmt := stmt,
              calls := calls2 ++ List.replicate (fetchLoop n.mktime columns n.fetched .Empty).2
                                   .mysql_stmt_fetch }

/-! ## Attributes -/

def STMT_ATTR_UPDATE_MAX_LENGTH : Int := 0

def STMT_ATTR_CURSOR_TYPE : Int := 1

def STMT_ATTR_PREFETCH_ROWS : Int := 2

/-- The operation `AttrGetSync`; `attr_integer_key` is what `REQ_INT_ARG(0, ..)`
binds. -/
def AttrGetSync (n : Native) (stmt : MysqlStatement) (attr_integer_key : Int) : Step :=
  match MYSQLSTMT_MUSTBE_INITIALIZED stmt with
  | some e => Step.guardFailed e stmt
  | none =>
    let calls := [NativeCall.mysql_stmt_attr_get attr_integer_key]
    if n.mysql_stmt_attr_get ≠ 0 then
      { outcome := .thrown (.exception "This attribute isn't supported by libmysqlclient"),
        stmt := stmt, calls := calls }
    else if attr_integer_key = STMT_ATTR_UPDATE_MAX_LENGTH then
      { outcome := .returned (.value (.Boolean (n.attr_value != 0))), stmt := stmt,
        calls := calls }
    else if attr_integer_key = STMT_ATTR_CURSOR_TYPE
        ∨ attr_integer_key = STMT_ATTR_PREFETCH_ROWS then
      { outcome := .returned (.value (.Integer (uint32_of n.attr_value))), stmt := stmt,
        calls := calls }
    else
      { outcome := .thrown (.exception "This attribute isn't supported yet"), stmt := stmt,
        calls := calls }

/-- The operation `AttrSetSync`; `attr_integer_key` is what `REQ_INT_ARG(0, ..)`
binds, `attr_bool_value` what `REQ_BOOL_ARG(1, ..)` binds and
`attr_uint_value` what `REQ_UINT_ARG(1, ..)` binds. -/
def AttrSetSync (n : Native) (stmt : MysqlStatement) (attr_integer_key : Int)
    (attr_bool_value : Bool) (attr_uint_value : Nat) : Step :=
  match MYSQLSTMT_MUSTBE_INITIALIZED stmt with
  | some e => Step.guardFailed e stmt
  | none =>
    if attr_integer_key = STMT_ATTR_UPDATE_MAX_LENGTH
        ∨ attr_integer_key = STMT_ATTR_CURSOR_TYPE
        ∨ attr_integer_key = STMT_ATTR_PREFETCH_ROWS then
      let calls :=
        if attr_integer_key = STMT_ATTR_UPDATE_MAX_LENGTH then
          [NativeCall.mysql_stmt_attr_set_bool attr_integer_key attr_bool_value]
        else [NativeCall.mysql_stmt_attr_set_uint attr_integer_key attr_uint_value]
      if n.mysql_stmt_attr_set ≠ 0 then
        { outcome := .thrown (.exception "This attribute isn't supported by libmysqlclient"),
          stmt := stmt, calls := calls }
      else { outcome := .returned (.value (.Boolean true)), stmt := stmt, calls := calls }
    else
      { outcome := .thrown (.exception "This attribute isn't supported yet"), stmt := stmt,
        calls := [] }

/-! ## Scalar getters and pass-through operations -/

def ParamCountGetter (stmt : MysqlStatement) : Step :=
  match initializedAndPrepared stmt with
  | some e => Step.guardFailed e stmt
  | none =>
    { outcome := .returned (.value (.Integer (int32_of stmt.param_count))), stmt := stmt,
      calls := [] }

def AffectedRowsSync (n : Native) (stmt : MysqlStatement) : Step :=
  match initializedAndPrepared stmt with
  | some e => Step.guardFailed e stmt
  | none =>
    let affected_rows := n.mysql_stmt_affected_rows
    { outcome := .returned (.value (.Integer
        (if affected_rows = 18446744073709551615 then -1 else int32_of affected_rows))),
      stmt := stmt, calls := [.mysql_stmt_affected_rows] }

def ErrnoSync (n : Native) (stmt : MysqlStatement) : Step :=
  match MYSQLSTMT_MUSTBE_INITIALIZED stmt with
  | some e => Step.guardFailed e stmt
  | none =>
    { outcome := .returned (.value (.Integer (int32_of n.mysql_stmt_errno))), stmt := stmt,
      calls := [.mysql_stmt_errno] }

def ErrorSync (n : Native) (stmt : MysqlStatement) : Step :=
  match MYSQLSTMT_MUSTBE_INITIALIZED stmt with
  | some e => Step.guardFailed e stmt
  | none =>
    { outcome := .returned (.value (.String n.mysql_stmt_error)), stmt := stmt,
      calls := [.mysql_stmt_error] }

def FieldCountSync (n : Native) (stmt : MysqlStatement) : Step :=
  match initializedAndPrepared stmt with
  | some e => Step.guardFailed e stmt
  | none =>
    { outcome := .returned (.value (.Integer (int32_of n.mysql_stmt_field_count))),
      stmt := stmt, calls := [.mysql_stmt_field_count] }

def LastInsertIdSync (n : Native) (stmt : MysqlStatement) : Step :=
  match initializedAndPrepared stmt with
  | some e => Step.guardFailed e stmt
  | none =>
    { outcome := .returned (.value (.Integer (int32_of n.mysql_stmt_insert_id))),
      stmt := stmt, calls := [.mysql_stmt_insert_id] }

def ResultMetadataSync (n : Native) (stmt : MysqlStatement) : Step :=
  match initializedAndPrepared stmt with
  | some e => Step.guardFailed e stmt
  | none =>
    match n.mysql_stmt_result_metadata with
    | none =>
      { outcome := .returned (.value (.Boolean false)), stmt := stmt,
        calls := [.mysql_stmt_result_metadata] }
    | some my_result =>
      { outcome := .returned (.MysqlResult my_result (int32_of n.mysql_stmt_field_count)),
        stmt := stmt, calls := [.mysql_stmt_result_metadata, .mysql_stmt_field_count] }

/-- The operation `SendLongDataSync`; `parameter_number` is what
`REQ_INT_ARG(0, ..)` binds and `data` what `REQ_STR_ARG(1, ..)` binds. -/
def SendLongDataSync (n : Native) (stmt : MysqlStatement) (parameter_number : Int)
    (data : String) : Step :=
  match initializedAndPrepared stmt with
  | some e => Step.guardFailed e stmt
  | none =>
    { outcome := .returned (.value (.Boolean (n.mysql_stmt_send_long_data == 0))),
      stmt := stmt,
      calls := [.mysql_stmt_send_long_data (uint32_of parameter_number) (Utf8Value data)
                 (Utf8Length data)] }

def SqlStateSync (n : Native) (stmt : MysqlStatement) : Step :=
  match MYSQLSTMT_MUSTBE_INITIALIZED stmt with
  | some e => Step.guardFailed e stmt
  | none =>
    { outcome := .returned (.value (.String n.mysql_stmt_sqlstate)), stmt := stmt,
      calls := [.mysql_stmt_sqlstate] }

/-! ## `MysqlStatement::~MysqlStatement` -/

/-- What the tag dispatch of the destructor does with one slot: which `delete`
it applies to `buffer`, or the last branch, which releases nothing and prints
`o_0`. -/
inductive Release
  | delete_unsigned_int
  | delete_int
  | delete_double
  | delete_chars_and_length
  | delete_MYSQL_TIME
  | unrecognized
deriving DecidableEq

/-- The body of the destructor loop for `binds[i]`. -/
def releaseSlot (bind : MYSQL_BIND) : Release :=
  if bind.buffer_type = MYSQL_TYPE_LONG then
    if bind.is_unsigned then .delete_unsigned_int else .delete_int
  else if bind.buffer_type = MYSQL_TYPE_DOUBLE then .delete_double
  else if bind.buffer_type = MYSQL_TYPE_STRING then .delete_chars_and_length
  else if bind.buffer_type = MYSQL_TYPE_DATETIME then .delete_MYSQL_TIME
  else .unrecognized

/-- What the destructor leaves behind: the dispatch result for every slot it
visited, the invalid access it ran into (if any), and its native calls. -/
structure Destroyed where
  releases : List Release
  fault : Option Fault
  calls : List NativeCall
deriving DecidableEq

/-- The loop `for (i = 0; i < param_count; i++)` of the destructor from index
`i` on, with `k` iterations left: `none` when `binds[i]` is not a slot of a
live array. -/
def releaseLoop (binds : BindArray) : Nat → Nat → Option (List Release)
  | 0, _ => some []
  | k + 1, i =>
    match binds with
    | .live slots =>
      match slots[i]? with
      | none => none
      | some bind => (releaseLoop binds k (i + 1)).map (fun rest => releaseSlot bind :: rest)
    | _ => none

/-- The destructor `MysqlStatement::~MysqlStatement`. -/
def MysqlStatement.destructor (stmt : MysqlStatement) : Destroyed :=
  if stmt._stmt.isNone then { releases := [], fault := none, calls := [] }
  else if stmt.prepared then
    match releaseLoop stmt.binds stmt.param_count 0 with
    | none => { releases := [], fault := some .outOfBounds, calls := [] }
    | some releases =>
      match deleteBinds stmt.binds with
      | none => { releases := releases, fault := some .doubleDelete, calls := [] }
      | some _ =>
        { releases := releases, fault := none,
          calls := [.mysql_stmt_free_result, .mysql_stmt_close] }
  else { releases := [], fault := none, calls := [.mysql_stmt_free_result, .mysql_stmt_close] }

/-! ## The method table -/

/-- The prototype methods and the accessor registered by `MysqlStatement::Init`,
each with the argument values its `REQ_*_ARG` macros bind. -/
inductive Operation
  | paramCount
  | affectedRowsSync
  | attrGetSync (attr_integer_key : Int)
  | attrSetSync (attr_integer_key : Int) (attr_bool_value : Bool) (attr_uint_value : Nat)
  | bindParamsSync (js_params : List JsValue)
  | closeSync
  | dataSeekSync (offset_double : JsNumber) (offset_uint : Nat)
  | errnoSync
  | errorSync
  | executeSync
  | fetchAllSync
  | fieldCountSync
  | freeResultSync
  | lastInsertIdSync
  | numRowsSync
  | prepareSync (query : String)
  | resetSync
  | resultMetadataSync
  | sendLongDataSync (parameter_number : Int) (data : String)
  | storeResultSync
  | sqlStateSync

/-- Running one method on a handle, the client library answering with `n`. -/
def Operation.run (n : Native) (castNaN : Int) : Operation → MysqlStatement → Step
  | .paramCount, stmt => ParamCountGetter stmt
  | .affectedRowsSync, stmt => AffectedRowsSync n stmt
  | .attrGetSync k, stmt => AttrGetSync n stmt k
  | .attrSetSync k b u, stmt => AttrSetSync n stmt k b u
  | .bindParamsSync js_params, stmt => BindParamsSync n castNaN stmt js_params
  | .closeSync, stmt => CloseSync n stmt
  | .dataSeekSync d u, stmt => DataSeekSync n stmt d u
  | .errnoSync, stmt => ErrnoSync n stmt
  | .errorSync, stmt => ErrorSync n stmt
  | .executeSync, stmt => ExecuteSync n stmt
  | .fetchAllSync, stmt => FetchAllSync n stmt
  | .fieldCountSync, stmt => FieldCountSync n stmt
  | .freeResultSync, stmt => FreeResultSync n stmt
  | .lastInsertIdSync, stmt => LastInsertIdSync n stmt
  | .numRowsSync, stmt => NumRowsSync n stmt
  | .prepareSync query, stmt => PrepareSync n stmt query
  | .resetSync, stmt => ResetSync n stmt
  | .resultMetadataSync, stmt => ResultMetadataSync n stmt
  | .sendLongDataSync k data, stmt => SendLongDataSync n stmt k data
  | .storeResultSync, stmt => StoreResultSync n stmt
  | .sqlStateSync, stmt => SqlStateSync n stmt

/-! ## Vocabulary of the properties -/

/-- Slot `i` of the handle, when `binds` points to a live array holding it. -/
def BindArray.slot : BindArray → Nat → Option MYSQL_BIND
  | .live slots, i => slots[i]?
  | _, _ => none

/-- Representation invariant of a prepared handle: when the statement declares
parameters, `binds` is a live array with one slot per parameter. -/
def MysqlStatement.wellFormed (stmt : MysqlStatement) : Prop :=
  stmt.prepared = true → 0 < stmt.param_count →
    ∃ slots, stmt.binds = .live slots ∧ slots.length = stmt.param_count

/-- The date entry converts: `gmtime_r` succeeds on its time value. -/
def dateConverts (castNaN : Int) : JsValue → Prop
  | .date t => (gmtime_r (timeT_of castNaN (JsValue.date t).NumberValue)).isSome = true
  | _ => True

/-- The text of a string or object value has no NUL character, so its C-string
copy is complete. -/
def textHasNoNUL : JsValue → Prop
  | .string s => 0 ∉ Utf8Value s
  | .object text => 0 ∉ Utf8Value text
  | _ => True

/-- The rule table of the specification, read off its wording: what slot a
defined value must end in.  Integers are compared as mathematical values, the
textual form as its UTF-8 bytes. -/
def SlotRule : JsValue → MYSQL_BIND → Prop
  | .undefined, _ => False
  | .null, b => b.buffer_type = MYSQL_TYPE_NULL ∧ b.buffer = .int 0
  | .boolean t, b => b.buffer_type = MYSQL_TYPE_TINY ∧ b.buffer = .int (if t then 1 else 0)
  | .number (.finite q), b =>
    if q.den = 1 ∧ -2147483648 ≤ q.num ∧ q.num ≤ 2147483647 then
      b.buffer_type = MYSQL_TYPE_LONG ∧ b.is_unsigned = false ∧ b.buffer = .int q.num
    else if q.den = 1 ∧ 2147483647 < q.num ∧ q.num ≤ 4294967295 then
      b.buffer_type = MYSQL_TYPE_LONG ∧ b.is_unsigned = true
        ∧ b.buffer = .unsigned_int q.num.toNat
    else b.buffer_type = MYSQL_TYPE_DOUBLE ∧ b.buffer = .double (.finite q)
  | .number x, b => b.buffer_type = MYSQL_TYPE_DOUBLE ∧ b.buffer = .double x
  | .date _, b => b.buffer_type = MYSQL_TYPE_DATETIME ∧ ∃ t, b.buffer = .MYSQL_TIME t
  | .string s, b => b.buffer_type = MYSQL_TYPE_STRING ∧ b.buffer = .chars (Utf8Value s)
  | .object text, b => b.buffer_type = MYSQL_TYPE_STRING ∧ b.buffer = .chars (Utf8Value text)

/-- The client library answering success everywhere, with an empty result set. -/
def Native.success : Native :=
  { mysql_stmt_affected_rows := 0, mysql_stmt_attr_get := 0, attr_value := 0,
    mysql_stmt_attr_set := 0, mysql_stmt_bind_param := 0, mysql_stmt_close := 0,
    mysql_stmt_num_rows := 0, mysql_stmt_errno := 0, mysql_stmt_error := "",
    mysql_stmt_execute := 0, mysql_stmt_field_count := 0,
    mysql_stmt_result_metadata := some [], mysql_stmt_bind_result := 0,
    mysql_stmt_store_result := 0, fetched := [], mktime := fun _ => 0,
    mysql_stmt_free_result := 0, mysql_stmt_insert_id := 0, mysql_stmt_prepare := 0,
    mysql_stmt_param_count := 0, mysql_stmt_reset := 0, mysql_stmt_send_long_data := 0,
    mysql_stmt_sqlstate := "00000" }

/-- A handle prepared for a statement with `k` parameters, slots still empty. -/
def preparedHandle (k : Nat) : MysqlStatement :=
  (PrepareSync { Native.success with mysql_stmt_param_count := k }
    (MysqlStatement.new (some 1)) "SELECT ?").stmt

/-- A client library whose statement has the single `TINYINT` column `flag`
and one row; the fetch leaves `byte` in the column scratch and `length` in
`length[0]`. -/
def tinyColumn (byte length : Nat) : Native :=
  { Native.success with
    mysql_stmt_field_count := 1,
    mysql_stmt_result_metadata := some [{ name := "flag", type := MYSQL_TYPE_TINY, length := 1 }],
    mysql_stmt_num_rows := 1,
    fetched := [fun _ => { int_data := 0, tiny_data := byte, double_data := .finite 0,
                           str_data := [], length := length,
                           date_data := { year := 0, month := 0, day := 0, hour := 0,
                                          minute := 0, second := 0 } }] }

/-- A client library whose statement has the single `BLOB` column `data`, a
type outside both switches of `FetchAllSync`, and one row. -/
def blobColumn : Native :=
  { Native.success with
    mysql_stmt_field_count := 1,
    mysql_stmt_result_metadata := some [{ name := "data", type := MYSQL_TYPE_BLOB, length := 10 }],
    mysql_stmt_num_rows := 1,
    fetched := [fun _ => { int_data := 0, tiny_data := 0, double_data := .finite 0,
                           str_data := [], length := 0,
                           date_data := { year := 0, month := 0, day := 0, hour := 0,
                                          minute := 0, second := 0 } }] }

/-- A client library whose statement has no result set: no columns and no
result metadata. -/
def noResultSet : Native :=
  { Native.success with mysql_stmt_field_count := 0, mysql_stmt_result_metadata := none }

/-- Running a sequence of methods, each paired with what the client library
answers during it. -/
def runAll (castNaN : Int) : List (Native × Operation) → MysqlStatement → MysqlStatement
  | [], stmt => stmt
  | (n, op) :: rest, stmt => runAll castNaN rest (op.run n castNaN stmt).stmt

/-- A client library whose `mysql_stmt_close` reports failure. -/
def closeFails : Native := { Native.success with mysql_stmt_close := 1 }

/-- A prepared handle on which `StoreResultSync` has succeeded. -/
def storedHandle : MysqlStatement := (StoreResultSync Native.success (preparedHandle 0)).stmt

/-- A client library reporting a stored result of `rows` rows. -/
def rowCount (rows : Nat) : Native := { Native.success with mysql_stmt_num_rows := rows }

/-- The capacity of one row of the scratch `char str_data[field_count][64]`. -/
def str_data_capacity : Nat := 64

/-- A client library whose statement has the single `VARCHAR` column `name` of
declared length `declared` and one row; the fetch reports `fetched` bytes, all
of them the letter `a`, from the start of the column scratch row. -/
def stringColumn (declared fetched : Nat) : Native :=
  { Native.success with
    mysql_stmt_field_count := 1,
    mysql_stmt_result_metadata :=
      some [{ name := "name", type := MYSQL_TYPE_VAR_STRING, length := declared }],
    mysql_stmt_num_rows := 1,
    fetched := [fun _ => { int_data := 0, tiny_data := 0, double_data := .finite 0,
                           str_data := List.replicate fetched 97, length := fetched,
                           date_data := { year := 0, month := 0, day := 0, hour := 0,
                                          minute := 0, second := 0 } }] }

/-- Day number, counted from 1970-01-01, of a proleptic Gregorian date. -/
def daysFromCivil (year month day : Int) : Int :=
  let y := if month ≤ 2 then year - 1 else year
  let era := y / 400
  let yoe := y - era * 400
  let mp := if month ≤ 2 then month + 9 else month - 3
  let doy := (153 * mp + 2) / 5 + day - 1
  let doe := yoe * 365 + yoe / 4 - yoe / 100 + doy
  era * 146097 + doe - 719468

/-- Number of days of a month of the proleptic Gregorian calendar. -/
def daysInMonth (year month : Nat) : Nat :=
  if month = 2 then
    if year % 4 = 0 ∧ (year % 100 ≠ 0 ∨ year % 400 = 0) then 29 else 28
  else if month = 4 ∨ month = 6 ∨ month = 9 ∨ month = 11 then 30
  else 31

/-- Seconds since the epoch of the UTC date and time a `MYSQL_TIME` denotes. -/
def secondsFromFields (t : MYSQL_TIME) : Int :=
  daysFromCivil t.year t.month t.day * 86400 + t.hour * 3600 + t.minute * 60 + t.second

/-- The wording of the specification for a bound date: `t` holds the UTC
calendar fields, to whole-second precision, of the instant `m` milliseconds
after the epoch.  The fields are in range and denote the second that contains
the instant. -/
def IsUtcFieldsOf (m : Int) (t : MYSQL_TIME) : Prop :=
  1 ≤ t.month ∧ t.month ≤ 12 ∧ 1 ≤ t.day ∧ t.day ≤ daysInMonth t.year t.month
    ∧ t.hour < 24 ∧ t.minute < 60 ∧ t.second < 60
    ∧ secondsFromFields t = m / 1000

instance (m : Int) (t : MYSQL_TIME) : Decidable (IsUtcFieldsOf m t) := by
  unfold IsUtcFieldsOf
  infer_instance

/-- The `delete` chosen by the tag dispatch matches what `buffer` points to
(and, for a string slot, `length` points to an allocated counter). -/
def Release.fits : Release → MYSQL_BIND → Prop
  | .delete_unsigned_int, bind => ∃ v, bind.buffer = .unsigned_int v
  | .delete_int, bind => ∃ v, bind.buffer = .int v
  | .delete_double, bind => ∃ x, bind.buffer = .double x
  | .delete_chars_and_length, bind => (∃ bytes, bind.buffer = .chars bytes) ∧ bind.length.isSome
  | .delete_MYSQL_TIME, bind => ∃ t, bind.buffer = .MYSQL_TIME t
  | .unrecognized, _ => False

/-! ## Auxiliary facts -/

theorem guards_pass (stmt : MysqlStatement) (hinit : stmt._stmt ≠ none)
    (hprep : stmt.prepared = true) : initializedAndPrepared stmt = none := by
  cases h : stmt._stmt with
  | none => exact absurd h hinit
  | some p => simp [initializedAndPrepared, MYSQLSTMT_MUSTBE_INITIALIZED,
      MYSQLSTMT_MUSTBE_PREPARED, h, hprep]

theorem toInt32_finite (q : ℚ) (hd : q.den = 1) (h1 : -2147483648 ≤ q.num)
    (h2 : q.num ≤ 2147483647) : (JsNumber.finite q).toInt32 = q.num := by
  simp only [JsNumber.toInt32, JsNumber.toUint32, JsNumber.truncate, hd, Nat.cast_one,
    Int.tdiv_one]
  have hnn : 0 ≤ q.num % 4294967296 := Int.emod_nonneg _ (by norm_num)
  have hcast : (((q.num % 4294967296).toNat : Nat) : Int) = q.num % 4294967296 :=
    Int.toNat_of_nonneg hnn
  split
  · rename_i h
    have : ((q.num % 4294967296).toNat : Int) < 2147483648 := by exact_mod_cast h
    omega
  · rename_i h
    have : ¬ ((q.num % 4294967296).toNat : Int) < 2147483648 := by
      intro hc; apply h; exact_mod_cast hc
    omega

theorem toUint32_finite (q : ℚ) (hd : q.den = 1) (h1 : 0 ≤ q.num)
    (h2 : q.num ≤ 4294967295) : (JsNumber.finite q).toUint32 = q.num.toNat := by
  simp only [JsNumber.toUint32, JsNumber.truncate, hd, Nat.cast_one, Int.tdiv_one]
  congr 1
  omega

theorem strdup_of_no_nul (bytes : List Nat) (h : 0 ∉ bytes) : strdup bytes = bytes := by
  induction bytes with
  | nil => rfl
  | cons b rest ih =>
    have hb : (b != 0) = true := by
      simp only [bne_iff_ne, ne_eq]
      exact fun hb => h (by simp [hb])
    have hr : 0 ∉ rest := fun hr => h (by simp [hr])
    have ih1 := ih hr
    unfold strdup at ih1 ⊢
    rw [List.takeWhile_cons, hb]
    simp [ih1]

theorem isInt32_finite (q : ℚ) : (JsNumber.finite q).isInt32 = true ↔
    (q.den = 1 ∧ -2147483648 ≤ q.num ∧ q.num ≤ 2147483647) := by
  simp only [JsNumber.isInt32, Rat.isInt, Bool.and_eq_true, beq_iff_eq, decide_eq_true_eq]
  tauto

theorem isUint32_finite (q : ℚ) : (JsNumber.finite q).isUint32 = true ↔
    (q.den = 1 ∧ 0 ≤ q.num ∧ q.num ≤ 4294967295) := by
  simp only [JsNumber.isUint32, Rat.isInt, Bool.and_eq_true, beq_iff_eq, decide_eq_true_eq]
  tauto

/-- Whatever the slot held before, the assignments of the loop body leave it as
the rule table says. -/
theorem bindParam_rule (castNaN : Int) (v : JsValue) (f : MYSQL_BIND → MYSQL_BIND)
    (h : bindParam castNaN v = .ok f) (htext : textHasNoNUL v) (old : MYSQL_BIND) :
    SlotRule v (f old) := by
  cases v with
  | undefined => simp [bindParam, JsValue.IsUndefined] at h
  | null =>
    simp [bindParam, JsValue.IsUndefined, JsValue.IsNull] at h
    subst h
    simp [SlotRule]
  | boolean b =>
    simp [bindParam, JsValue.IsUndefined, JsValue.IsNull, JsValue.IsInt32,
      JsValue.IsBoolean] at h
    subst h
    simp [SlotRule, JsValue.BooleanValue]
  | number x =>
    cases x with
    | finite q =>
      by_cases hi : q.den = 1 ∧ -2147483648 ≤ q.num ∧ q.num ≤ 2147483647
      · have h1 : (JsNumber.finite q).isInt32 = true := (isInt32_finite q).mpr hi
        simp only [bindParam, JsValue.IsUndefined, JsValue.IsNull, JsValue.IsInt32, h1,
          if_true, Bool.false_eq_true, if_false, Except.ok.injEq] at h
        subst h
        simp only [SlotRule, if_pos hi, JsValue.Int32Value, JsValue.NumberValue]
        rw [toInt32_finite q hi.1 hi.2.1 hi.2.2]
        simp
      · have h1 : (JsNumber.finite q).isInt32 = false := by
          cases hc : (JsNumber.finite q).isInt32 with
          | false => rfl
          | true => exact absurd ((isInt32_finite q).mp hc) hi
        by_cases hu : q.den = 1 ∧ 2147483647 < q.num ∧ q.num ≤ 4294967295
        · have h2 : (JsNumber.finite q).isUint32 = true :=
            (isUint32_finite q).mpr ⟨hu.1, by omega, hu.2.2⟩
          simp only [bindParam, JsValue.IsUndefined, JsValue.IsNull, JsValue.IsInt32, h1,
            JsValue.IsBoolean, JsValue.IsUint32, h2,
            if_true, Bool.false_eq_true, if_false, Except.ok.injEq] at h
          subst h
          simp only [SlotRule, if_neg hi, if_pos hu, JsValue.Uint32Value,
            JsValue.NumberValue]
          rw [toUint32_finite q hu.1 (by omega) hu.2.2]
          simp
        · have h2 : (JsNumber.finite q).isUint32 = false := by
            cases hc : (JsNumber.finite q).isUint32 with
            | false => rfl
            | true =>
              have hc1 := (isUint32_finite q).mp hc
              exfalso
              by_cases hlt : q.num ≤ 2147483647
              · exact hi ⟨hc1.1, by omega, hlt⟩
              · exact hu ⟨hc1.1, by omega, hc1.2.2⟩
          simp only [bindParam, JsValue.IsUndefined, JsValue.IsNull, JsValue.IsInt32, h1,
            JsValue.IsBoolean, JsValue.IsUint32, h2, JsValue.IsNumber,
            if_true, Bool.false_eq_true, if_false, Except.ok.injEq] at h
          subst h
          simp only [SlotRule, if_neg hi, if_neg hu, JsValue.NumberValue]
          simp
    | negZero =>
      simp [bindParam, JsValue.IsUndefined, JsValue.IsNull, JsValue.IsInt32,
        JsValue.IsBoolean, JsValue.IsUint32, JsValue.IsNumber, JsNumber.isInt32,
        JsNumber.isUint32] at h
      subst h
      simp [SlotRule, JsValue.NumberValue]
    | nan =>
      simp [bindParam, JsValue.IsUndefined, JsValue.IsNull, JsValue.IsInt32,
        JsValue.IsBoolean, JsValue.IsUint32, JsValue.IsNumber, JsNumber.isInt32,
        JsNumber.isUint32] at h
      subst h
      simp [SlotRule, JsValue.NumberValue]
    | posInf =>
      simp [bindParam, JsValue.IsUndefined, JsValue.IsNull, JsValue.IsInt32,
        JsValue.IsBoolean, JsValue.IsUint32, JsValue.IsNumber, JsNumber.isInt32,
        JsNumber.isUint32] at h
      subst h
      simp [SlotRule, JsValue.NumberValue]
    | negInf =>
      simp [bindParam, JsValue.IsUndefined, JsValue.IsNull, JsValue.IsInt32,
        JsValue.IsBoolean, JsValue.IsUint32, JsValue.IsNumber, JsNumber.isInt32,
        JsNumber.isUint32] at h
      subst h
      simp [SlotRule, JsValue.NumberValue]
  | date t =>
    simp only [bindParam, JsValue.IsUndefined, JsValue.IsNull, JsValue.IsInt32,
      JsValue.IsBoolean, JsValue.IsUint32, JsValue.IsNumber, JsValue.IsDate] at h
    cases hg : gmtime_r (timeT_of castNaN (JsValue.date t).NumberValue) with
    | none => simp [hg] at h
    | some d =>
      simp [hg] at h
      subst h
      simp [SlotRule]
  | string s =>
    simp [bindParam, JsValue.IsUndefined, JsValue.IsNull, JsValue.IsInt32,
      JsValue.IsBoolean, JsValue.IsUint32, JsValue.IsNumber, JsValue.IsDate] at h
    subst h
    simp only [SlotRule, JsValue.ToString]
    rw [strdup_of_no_nul _ htext]
    simp
  | object text =>
    simp [bindParam, JsValue.IsUndefined, JsValue.IsNull, JsValue.IsInt32,
      JsValue.IsBoolean, JsValue.IsUint32, JsValue.IsNumber, JsValue.IsDate] at h
    subst h
    simp only [SlotRule, JsValue.ToString]
    rw [strdup_of_no_nul _ htext]
    simp

/-- An element makes the loop body throw only in two ways: it is undefined, or
it is a date that `gmtime_r` rejects. -/
theorem bindParam_error (castNaN : Int) (v : JsValue) (e : JsError)
    (h : bindParam castNaN v = .error e) :
    (v = .undefined ∧ e = .exception "All arguments must be defined")
      ∨ (¬ dateConverts castNaN v ∧ e = .exception "Error occured in gmtime_r()") := by
  cases v with
  | undefined =>
    left
    simp [bindParam, JsValue.IsUndefined] at h
    exact ⟨rfl, h.symm⟩
  | null => simp [bindParam, JsValue.IsUndefined, JsValue.IsNull] at h
  | boolean b =>
    simp [bindParam, JsValue.IsUndefined, JsValue.IsNull, JsValue.IsInt32,
      JsValue.IsBoolean] at h
  | number x =>
    cases h1 : x.isInt32 <;> cases h2 : x.isUint32 <;>
      simp [bindParam, JsValue.IsUndefined, JsValue.IsNull, JsValue.IsInt32,
        JsValue.IsBoolean, JsValue.IsUint32, JsValue.IsNumber, h1, h2] at h
  | date t =>
    right
    simp only [bindParam, JsValue.IsUndefined, JsValue.IsNull, JsValue.IsInt32,
      JsValue.IsBoolean, JsValue.IsUint32, JsValue.IsNumber, JsValue.IsDate] at h
    simp only [dateConverts]
    cases hg : gmtime_r (timeT_of castNaN (JsValue.date t).NumberValue) with
    | none =>
      simp [hg] at h
      exact ⟨by simp, h.symm⟩
    | some d => simp [hg] at h
  | string s =>
    simp [bindParam, JsValue.IsUndefined, JsValue.IsNull, JsValue.IsInt32,
      JsValue.IsBoolean, JsValue.IsUint32, JsValue.IsNumber, JsValue.IsDate] at h
  | object text =>
    simp [bindParam, JsValue.IsUndefined, JsValue.IsNull, JsValue.IsInt32,
      JsValue.IsBoolean, JsValue.IsUint32, JsValue.IsNumber, JsValue.IsDate] at h

/-- A defined element whose date (if it is one) converts is bound. -/
theorem bindParam_ok (castNaN : Int) (v : JsValue) (hdef : v ≠ .undefined)
    (hdate : dateConverts castNaN v) : ∃ f, bindParam castNaN v = .ok f := by
  cases h : bindParam castNaN v with
  | ok f => exact ⟨f, rfl⟩
  | error e =>
    rcases bindParam_error castNaN v e h with ⟨hu, _⟩ | ⟨hd, _⟩
    · exact absurd hu hdef
    · exact absurd hdate hd

/-- The loop, run over defined values whose dates convert, completes and leaves
every slot it visits as the rule table says; slots below `i` are untouched. -/
theorem bindParamsLoop_complete (castNaN : Int) :
    ∀ (vals : List JsValue) (i : Nat) (slots : List MYSQL_BIND),
      i + vals.length ≤ slots.length →
      (∀ v ∈ vals, v ≠ .undefined) → (∀ v ∈ vals, dateConverts castNaN v) →
      (∀ v ∈ vals, textHasNoNUL v) →
      ∃ slots', bindParamsLoop castNaN vals i (.live slots) = (none, .live slots')
        ∧ slots'.length = slots.length
        ∧ (∀ j, j < i → slots'[j]? = slots[j]?)
        ∧ (∀ k v, vals[k]? = some v → ∃ b, slots'[i + k]? = some b ∧ SlotRule v b) := by
  intro vals
  induction vals with
  | nil =>
    intro i slots _ _ _ _
    exact ⟨slots, rfl, rfl, fun _ _ => rfl, fun k v hk => by simp at hk⟩
  | cons v rest ih =>
    intro i slots hlen hdef hdate htext
    obtain ⟨f, hf⟩ := bindParam_ok castNaN v (hdef v (by simp)) (hdate v (by simp))
    have hi : i < slots.length := by simp at hlen; omega
    have hlen1 : i + 1 + rest.length ≤ (List.modify f i slots).length := by
      simp at hlen ⊢; omega
    obtain ⟨slots', hloop, hl, hlow, hrule⟩ := ih (i + 1) (List.modify f i slots) hlen1
      (fun w hw => hdef w (by simp [hw])) (fun w hw => hdate w (by simp [hw]))
      (fun w hw => htext w (by simp [hw]))
    refine ⟨slots', ?_, ?_, ?_, ?_⟩
    · simp only [bindParamsLoop, hf, BindArray.assign, if_pos hi]
      exact hloop
    · simpa using hl
    · intro j hj
      rw [hlow j (by omega)]
      exact List.getElem?_modify_ne f slots (by omega)
    · intro k w hk
      cases k with
      | zero =>
        simp at hk
        subst hk
        have h0 : slots'[i]? = (List.modify f i slots)[i]? := hlow i (by omega)
        rw [List.getElem?_modify_eq] at h0
        have hget : slots[i]? = some slots[i] := List.getElem?_eq_getElem hi
        rw [hget] at h0
        exact ⟨f slots[i], by simpa using h0, bindParam_rule castNaN v f hf (htext v (by simp)) _⟩
      | succ k =>
        have hk1 : rest[k]? = some w := by simpa using hk
        obtain ⟨b, hb, hr⟩ := hrule k w hk1
        exact ⟨b, by rw [← hb]; congr 1; omega, hr⟩

/-- The loop, run over values of which one is undefined, throws: the
definedness error, or the `gmtime_r` error of an earlier date; it is the
definedness error when every date before the undefined entry converts. -/
theorem bindParamsLoop_undefined (castNaN : Int) :
    ∀ (vals : List JsValue) (i : Nat) (slots : List MYSQL_BIND) (k : Nat),
      i + vals.length ≤ slots.length → vals[k]? = some .undefined →
      ((bindParamsLoop castNaN vals i (.live slots)).1
          = some (.thrown (.exception "All arguments must be defined"))
        ∨ (bindParamsLoop castNaN vals i (.live slots)).1
          = some (.thrown (.exception "Error occured in gmtime_r()")))
      ∧ ((∀ j v, j < k → vals[j]? = some v → dateConverts castNaN v) →
          (bindParamsLoop castNaN vals i (.live slots)).1
            = some (.thrown (.exception "All arguments must be defined"))) := by
  intro vals
  induction vals with
  | nil => intro i slots k _ hk; simp at hk
  | cons v rest ih =>
    intro i slots k hlen hk
    have hi : i < slots.length := by simp at hlen; omega
    cases hb : bindParam castNaN v with
    | error e =>
      have hloop : (bindParamsLoop castNaN (v :: rest) i (.live slots)).1
          = some (.thrown e) := by simp [bindParamsLoop, hb]
      rcases bindParam_error castNaN v e hb with ⟨_, he⟩ | ⟨hd, he⟩
      · subst he
        exact ⟨Or.inl hloop, fun _ => hloop⟩
      · subst he
        refine ⟨Or.inr hloop, fun hconv => ?_⟩
        cases k with
        | zero =>
          simp at hk
          subst hk
          simp [bindParam, JsValue.IsUndefined] at hb
        | succ k => exact absurd (hconv 0 v (by omega) (by simp)) hd
    | ok f =>
      have hstep : bindParamsLoop castNaN (v :: rest) i (.live slots)
          = bindParamsLoop castNaN rest (i + 1) (.live (List.modify f i slots)) := by
        simp [bindParamsLoop, hb, BindArray.assign, hi]
      cases k with
      | zero =>
        simp at hk
        subst hk
        simp [bindParam, JsValue.IsUndefined] at hb
      | succ k =>
        have hk1 : rest[k]? = some .undefined := by simpa using hk
        have hlen1 : i + 1 + rest.length ≤ (List.modify f i slots).length := by
          simp at hlen ⊢; omega
        obtain ⟨h1, h2⟩ := ih (i + 1) (List.modify f i slots) k hlen1 hk1
        rw [hstep]
        refine ⟨h1, fun hconv => h2 (fun j w hj hw => ?_)⟩
        exact hconv (j + 1) w (by omega) (by simpa using hw)

/-! ## Parameter binding -/

/-- C1 (as amended): on an initialized, prepared handle, for every values
sequence of length `param_count` without an undefined entry, in which every
date converts (`gmtime_r` succeeds) and no text contains a NUL character,
`BindParamsSync` reaches the native bind call, returns its verdict, and leaves
slot `i` as the rule table prescribes for `values[i]`: null, signed 32-bit
integer, boolean, unsigned 32-bit integer above the signed range, other number,
date, text, in that order of precedence. -/
theorem BindParamsSync_slot_rules (n : Native) (castNaN : Int) (stmt : MysqlStatement)
    (values : List JsValue) (hinit : stmt._stmt ≠ none) (hprep : stmt.prepared = true)
    (hwf : stmt.wellFormed) (hlen : values.length = stmt.param_count)
    (hdef : ∀ v ∈ values, v ≠ .undefined)
    (hdate : ∀ v ∈ values, dateConverts castNaN v)
    (htext : ∀ v ∈ values, textHasNoNUL v) :
    (BindParamsSync n castNaN stmt values).outcome
        = .returned (.value (.Boolean (n.mysql_stmt_bind_param == 0)))
      ∧ (BindParamsSync n castNaN stmt values).calls
        = [.mysql_stmt_bind_param (BindParamsSync n castNaN stmt values).stmt.binds]
      ∧ ∀ i v, values[i]? = some v →
          ∃ b, (BindParamsSync n castNaN stmt values).stmt.binds.slot i = some b
            ∧ SlotRule v b := by
  have hg := guards_pass stmt hinit hprep
  cases values with
  | nil =>
    simp [BindParamsSync, hg, ← hlen, bindParamsLoop]
  | cons v rest =>
    have hpos : 0 < stmt.param_count := by rw [← hlen]; simp
    obtain ⟨slots, hb, hs⟩ := hwf hprep hpos
    obtain ⟨slots', hloop, _, _, hrule⟩ := bindParamsLoop_complete castNaN (v :: rest) 0 slots
      (by rw [hs, ← hlen]; simp) hdef hdate htext
    have hrun : BindParamsSync n castNaN stmt (v :: rest)
        = { outcome := .returned (.value (.Boolean (n.mysql_stmt_bind_param == 0))),
            stmt := { stmt with binds := .live slots' },
            calls := [.mysql_stmt_bind_param (.live slots')] } := by
      simp only [BindParamsSync, hg, hb, hloop]
      simp [hlen]
    rw [hrun]
    refine ⟨rfl, rfl, fun i w hi => ?_⟩
    obtain ⟨b, hb1, hr⟩ := hrule i w hi
    exact ⟨b, by simpa [BindArray.slot] using hb1, hr⟩

theorem BindParamsSync_slot_rules_witness :
    (BindParamsSync Native.success castNaN_x86_64 (preparedHandle 3)
        [.number (.finite 4294967295), .boolean true, .string "x"]).outcome
        = .returned (.value (.Boolean (Native.success.mysql_stmt_bind_param == 0)))
      ∧ (BindParamsSync Native.success castNaN_x86_64 (preparedHandle 3)
          [.number (.finite 4294967295), .boolean true, .string "x"]).calls
        = [.mysql_stmt_bind_param (BindParamsSync Native.success castNaN_x86_64
            (preparedHandle 3)
            [.number (.finite 4294967295), .boolean true, .string "x"]).stmt.binds]
      ∧ ∀ i v, [JsValue.number (.finite 4294967295), .boolean true, .string "x"][i]? = some v →
          ∃ b, (BindParamsSync Native.success castNaN_x86_64 (preparedHandle 3)
              [.number (.finite 4294967295), .boolean true, .string "x"]).stmt.binds.slot i
              = some b ∧ SlotRule v b :=
  BindParamsSync_slot_rules Native.success castNaN_x86_64 (preparedHandle 3)
    [.number (.finite 4294967295), .boolean true, .string "x"]
    (by decide) (by decide)
    (fun _ _ => ⟨[MYSQL_BIND.zero, MYSQL_BIND.zero, MYSQL_BIND.zero], by decide, by decide⟩)
    (by decide)
    (by intro v hv; simp at hv; rcases hv with h | h | h <;> subst h <;> simp)
    (by intro v hv; simp at hv; rcases hv with h | h | h <;> subst h <;> simp [dateConverts])
    (by
      intro v hv; simp at hv
      rcases hv with h | h | h <;> subst h <;> simp [textHasNoNUL]
      decide)

/-- C1 (as stated) fails: an Invalid Date is a date, yet on x86-64 its slot is
not turned into a DateTime slot (the call throws the `gmtime_r` error); and a
text with an embedded NUL is bound as a string whose buffer holds only the
bytes before the NUL, not the textual form. -/
theorem BindParamsSync_slot_rules_counterexample :
    ((preparedHandle 1)._stmt ≠ none ∧ (preparedHandle 1).prepared = true
        ∧ (preparedHandle 1).param_count = 1)
      ∧ (BindParamsSync Native.success castNaN_x86_64 (preparedHandle 1)
          [.date none]).outcome = .thrown (.exception "Error occured in gmtime_r()")
      ∧ (¬ ∃ b, (BindParamsSync Native.success castNaN_x86_64 (preparedHandle 1)
          [.date none]).stmt.binds.slot 0 = some b ∧ SlotRule (.date none) b)
      ∧ (¬ ∃ b, (BindParamsSync Native.success castNaN_x86_64 (preparedHandle 1)
          [.string "a\x00b"]).stmt.binds.slot 0 = some b
            ∧ SlotRule (.string "a\x00b") b) := by
  refine ⟨by decide, by decide, ?_, ?_⟩
  · rintro ⟨b, hb, hr⟩
    have hslot : (BindParamsSync Native.success castNaN_x86_64 (preparedHandle 1)
        [.date none]).stmt.binds.slot 0 = some MYSQL_BIND.zero := by decide
    rw [hslot] at hb
    cases hb
    exact absurd hr.1 (by decide)
  · rintro ⟨b, hb, hr⟩
    have hslot : (BindParamsSync Native.success castNaN_x86_64 (preparedHandle 1)
        [.string "a\x00b"]).stmt.binds.slot 0
        = some { MYSQL_BIND.zero with buffer_type := MYSQL_TYPE_STRING, buffer := .chars [97],
                                      length := some 3 } := by decide
    rw [hslot] at hb
    cases hb
    exact absurd hr.2 (by decide)

/-- C2: on an initialized, prepared handle, whatever its `param_count`, a
values sequence of any other length makes `BindParamsSync` throw the
arity-mismatch error; nothing is returned, the handle is untouched and no
native call is made. -/
theorem BindParamsSync_arity_mismatch (n : Native) (castNaN : Int) (stmt : MysqlStatement)
    (values : List JsValue) (hinit : stmt._stmt ≠ none) (hprep : stmt.prepared = true)
    (hlen : values.length ≠ stmt.param_count) :
    BindParamsSync n castNaN stmt values
      = { outcome := .thrown (.exception
            "Array length doesn't match number of parameters in prepared statement"),
          stmt := stmt, calls := [] } := by
  simp [BindParamsSync, guards_pass stmt hinit hprep, hlen]

theorem BindParamsSync_arity_mismatch_witness :
    BindParamsSync Native.success 0 (preparedHandle 0) [.null]
      = { outcome := .thrown (.exception
            "Array length doesn't match number of parameters in prepared statement"),
          stmt := preparedHandle 0, calls := [] } :=
  BindParamsSync_arity_mismatch Native.success 0 (preparedHandle 0) [.null]
    (by decide) (by decide) (by decide)

/-- An element the loop body binds converts, if it is a date. -/
theorem bindParam_ok_converts (castNaN : Int) (v : JsValue) (f : MYSQL_BIND → MYSQL_BIND)
    (h : bindParam castNaN v = .ok f) : dateConverts castNaN v := by
  cases v with
  | date t =>
    simp only [bindParam, JsValue.IsUndefined, JsValue.IsNull, JsValue.IsInt32,
      JsValue.IsBoolean, JsValue.IsUint32, JsValue.IsNumber, JsValue.IsDate] at h
    simp only [dateConverts]
    cases hg : gmtime_r (timeT_of castNaN (JsValue.date t).NumberValue) with
    | none => simp [hg] at h
    | some d => rfl
  | undefined => trivial
  | null => trivial
  | boolean b => trivial
  | number x => trivial
  | string s => trivial
  | object text => trivial

/-- The loop, run over values of which some date does not convert while no
undefined entry precedes index `k` and that date lies before `k`, throws the
`gmtime_r` error. -/
theorem bindParamsLoop_gmtime (castNaN : Int) :
    ∀ (vals : List JsValue) (i : Nat) (slots : List MYSQL_BIND) (k : Nat),
      i + vals.length ≤ slots.length →
      (∀ j, j < k → vals[j]? ≠ some .undefined) →
      (∃ j v, j < k ∧ vals[j]? = some v ∧ ¬ dateConverts castNaN v) →
      (bindParamsLoop castNaN vals i (.live slots)).1
        = some (.thrown (.exception "Error occured in gmtime_r()")) := by
  intro vals
  induction vals with
  | nil =>
    intro i slots k _ _ hbad
    obtain ⟨j, v, _, hv, _⟩ := hbad
    simp at hv
  | cons w rest ih =>
    intro i slots k hlen hfirst hbad
    obtain ⟨j, v, hj, hv, hnc⟩ := hbad
    have hi : i < slots.length := by simp at hlen; omega
    have hw : w ≠ .undefined := by
      intro hu
      exact hfirst 0 (by omega) (by simp [hu])
    cases hb : bindParam castNaN w with
    | error e =>
      have hloop : (bindParamsLoop castNaN (w :: rest) i (.live slots)).1
          = some (.thrown e) := by simp [bindParamsLoop, hb]
      rcases bindParam_error castNaN w e hb with ⟨hu, _⟩ | ⟨_, he⟩
      · exact absurd hu hw
      · rw [hloop, he]
    | ok f =>
      have hstep : bindParamsLoop castNaN (w :: rest) i (.live slots)
          = bindParamsLoop castNaN rest (i + 1) (.live (List.modify f i slots)) := by
        simp [bindParamsLoop, hb, BindArray.assign, hi]
      have hwc := bindParam_ok_converts castNaN w f hb
      cases j with
      | zero =>
        simp at hv
        subst hv
        exact absurd hwc hnc
      | succ j =>
        have hv1 : rest[j]? = some v := by simpa using hv
        have hlen1 : i + 1 + rest.length ≤ (List.modify f i slots).length := by
          simp at hlen ⊢; omega
        rw [hstep]
        refine ih (i + 1) (List.modify f i slots) (k - 1) hlen1 ?_ ⟨j, v, by omega, hv1, hnc⟩
        intro m hm hu
        exact hfirst (m + 1) (by omega) (by simpa using hu)

/-- C3 (as amended): on an initialized, prepared handle, a values sequence of
length `param_count` with an undefined entry at index `k` makes
`BindParamsSync` throw without any native call, and the error is the
all-arguments-must-be-defined error or the `gmtime_r` error.  It is the
definedness error whenever every date before index `k` converts; it is the
`gmtime_r` error when `k` is the first undefined entry and some date before it
does not convert. -/
theorem BindParamsSync_undefined_entry (n : Native) (castNaN : Int) (stmt : MysqlStatement)
    (values : List JsValue) (k : Nat) (hinit : stmt._stmt ≠ none)
    (hprep : stmt.prepared = true) (hwf : stmt.wellFormed)
    (hlen : values.length = stmt.param_count) (hk : values[k]? = some .undefined) :
    (BindParamsSync n castNaN stmt values).calls = []
      ∧ ((BindParamsSync n castNaN stmt values).outcome
            = .thrown (.exception "All arguments must be defined")
          ∨ (BindParamsSync n castNaN stmt values).outcome
            = .thrown (.exception "Error occured in gmtime_r()"))
      ∧ ((∀ j v, j < k → values[j]? = some v → dateConverts castNaN v) →
          (BindParamsSync n castNaN stmt values).outcome
            = .thrown (.exception "All arguments must be defined"))
      ∧ ((∀ j, j < k → values[j]? ≠ some .undefined) →
          (∃ j v, j < k ∧ values[j]? = some v ∧ ¬ dateConverts castNaN v) →
          (BindParamsSync n castNaN stmt values).outcome
            = .thrown (.exception "Error occured in gmtime_r()")) := by
  have hg := guards_pass stmt hinit hprep
  have hpos : 0 < stmt.param_count := by
    rw [← hlen]
    cases values with
    | nil => simp at hk
    | cons v rest => simp
  obtain ⟨slots, hb, hs⟩ := hwf hprep hpos
  have hfit : 0 + values.length ≤ slots.length := by rw [hs, ← hlen]; simp
  obtain ⟨h1, h2⟩ := bindParamsLoop_undefined castNaN values 0 slots k hfit hk
  have hrun : ∀ out, (bindParamsLoop castNaN values 0 (.live slots)).1 = some out →
      (BindParamsSync n castNaN stmt values).calls = []
        ∧ (BindParamsSync n castNaN stmt values).outcome = out := by
    intro out hout
    cases hl : bindParamsLoop castNaN values 0 (.live slots) with
    | mk o binds =>
      rw [hl] at hout
      simp only at hout
      subst hout
      simp [BindParamsSync, hg, hb, hl, hlen]
  refine ⟨?_, ?_, fun hconv => (hrun _ (h2 hconv)).2, fun hfirst hbad =>
    (hrun _ (bindParamsLoop_gmtime castNaN values 0 slots k hfit hfirst hbad)).2⟩
  · rcases h1 with h | h
    · exact (hrun _ h).1
    · exact (hrun _ h).1
  · rcases h1 with h | h
    · exact Or.inl (hrun _ h).2
    · exact Or.inr (hrun _ h).2

theorem BindParamsSync_undefined_entry_witness :
    (BindParamsSync Native.success 0 (preparedHandle 2) [.null, .undefined]).calls = []
      ∧ (BindParamsSync Native.success 0 (preparedHandle 2) [.null, .undefined]).outcome
          = .thrown (.exception "All arguments must be defined")
      ∧ (BindParamsSync Native.success castNaN_x86_64 (preparedHandle 2)
          [.date none, .undefined]).outcome
          = .thrown (.exception "Error occured in gmtime_r()") :=
  ⟨(BindParamsSync_undefined_entry Native.success 0 (preparedHandle 2) [.null, .undefined] 1
      (by decide) (by decide)
      (fun _ _ => ⟨[MYSQL_BIND.zero, MYSQL_BIND.zero], by decide, by decide⟩)
      (by decide) (by decide)).1,
   (BindParamsSync_undefined_entry Native.success 0 (preparedHandle 2) [.null, .undefined] 1
      (by decide) (by decide)
      (fun _ _ => ⟨[MYSQL_BIND.zero, MYSQL_BIND.zero], by decide, by decide⟩)
      (by decide) (by decide)).2.2.1
      (by
        intro j v hj hv
        have hj0 : j = 0 := by omega
        subst hj0
        simp at hv
        subst hv
        trivial),
   (BindParamsSync_undefined_entry Native.success castNaN_x86_64 (preparedHandle 2)
      [.date none, .undefined] 1 (by decide) (by decide)
      (fun _ _ => ⟨[MYSQL_BIND.zero, MYSQL_BIND.zero], by decide, by decide⟩)
      (by decide) (by decide)).2.2.2
      (by
        intro j hj
        have hj0 : j = 0 := by omega
        subst hj0
        simp)
      ⟨0, .date none, by decide, by decide, by simp only [dateConverts]; decide⟩⟩

/-- C3 (as stated) fails: with an Invalid Date in front of the undefined entry
the call throws, on x86-64, the `gmtime_r` error and not the
all-arguments-must-be-defined error. -/
theorem BindParamsSync_undefined_entry_counterexample :
    ((preparedHandle 2)._stmt ≠ none ∧ (preparedHandle 2).prepared = true
        ∧ [JsValue.date none, .undefined].length = (preparedHandle 2).param_count
        ∧ [JsValue.date none, .undefined][1]? = some .undefined)
      ∧ (BindParamsSync Native.success castNaN_x86_64 (preparedHandle 2)
          [.date none, .undefined]).outcome
          = .thrown (.exception "Error occured in gmtime_r()")
      ∧ (BindParamsSync Native.success castNaN_x86_64 (preparedHandle 2)
          [.date none, .undefined]).outcome
          ≠ .thrown (.exception "All arguments must be defined") := by
  decide

/-! ## Fetching -/

/-- A tiny column whose fetched length is 1 yields the boolean `byte != 0`. -/
theorem columnValue_tiny_boolean (mktime : MYSQL_TIME → Int) (cell : Cell) (js_result : Value)
    (hlen : cell.length = 1) :
    columnValue mktime MYSQL_TYPE_TINY cell js_result
      = .Boolean (decide (cell.tiny_data % 256 ≠ 0)) := by
  simp only [columnValue, hlen, if_true, signed_char]
  congr 1
  apply decide_eq_decide.mpr
  split <;> omega

/-- A tiny column whose fetched length is not 1 yields an integer, whatever the
byte: the byte itself below 128, and the byte plus `2^32 - 256` from 128 on
(the `signed char` is sign-extended before it is taken as unsigned). -/
theorem columnValue_tiny_integer (mktime : MYSQL_TIME → Int) (cell : Cell) (js_result : Value)
    (hlen : cell.length ≠ 1) (hbyte : cell.tiny_data < 256) :
    columnValue mktime MYSQL_TYPE_TINY cell js_result
      = .Integer (if cell.tiny_data < 128 then (cell.tiny_data : Int)
                  else (cell.tiny_data : Int) + 4294967040) := by
  simp only [columnValue, if_neg hlen, signed_char, uint32_of]
  congr 1
  have hm : cell.tiny_data % 256 = cell.tiny_data := Nat.mod_eq_of_lt hbyte
  rw [hm]
  by_cases h : cell.tiny_data < 128
  · simp only [if_pos h]
    have hnn : (0 : Int) ≤ (cell.tiny_data : Int) % 4294967296 := Int.emod_nonneg _ (by norm_num)
    rw [Int.toNat_of_nonneg hnn]
    omega
  · simp only [if_neg h]
    have hnn : (0 : Int) ≤ ((cell.tiny_data : Int) - 256) % 4294967296 :=
      Int.emod_nonneg _ (by norm_num)
    rw [Int.toNat_of_nonneg hnn]
    omega

/-- C4 (the code at the failing input): a tiny column whose fetched byte is
`0xFF` with fetched length 2 comes back as the integer 4294967295, not as the
byte 255 taken as an unsigned integer. -/
theorem FetchAllSync_tiny_sign_extension :
    (FetchAllSync (tinyColumn 255 2) (preparedHandle 0)).outcome
        = .returned (.Array [[("flag", .Integer 4294967295)]])
      ∧ (FetchAllSync (tinyColumn 255 2) (preparedHandle 0)).outcome
        ≠ .returned (.Array [[("flag", .Integer 255)]])
      ∧ (FetchAllSync (tinyColumn 255 1) (preparedHandle 0)).outcome
        = .returned (.Array [[("flag", .Boolean true)]])
      ∧ (FetchAllSync (tinyColumn 1 2) (preparedHandle 0)).outcome
        = .returned (.Array [[("flag", .Integer 1)]]) := by
  decide

/-- A first column whose type is outside the second switch leaves `js_result`
the empty handle, and handing it to `Set` is an invalid access, after one
fetch. -/
theorem FetchAllSync_unlisted_first_column :
    (FetchAllSync blobColumn (preparedHandle 0)).outcome = .fault .emptyHandle
      ∧ (FetchAllSync blobColumn (preparedHandle 0)).calls
        = [.mysql_stmt_field_count, .mysql_stmt_result_metadata,
           .mysql_stmt_bind_result
             [{ buffer_type := MYSQL_TYPE_BLOB, buffer := .NULL, buffer_length := 0 }],
           .mysql_stmt_store_result, .mysql_stmt_num_rows, .mysql_stmt_fetch] := by
  decide

/-- C5: on an initialized, prepared handle, when the output binding is
performed and succeeds, materialization succeeds and the row count is zero,
`FetchAllSync` returns the empty array (neither null nor an exception), calls
`mysql_stmt_fetch` not once, and leaves the handle as it was. -/
theorem FetchAllSync_zero_rows (n : Native) (stmt : MysqlStatement)
    (hinit : stmt._stmt ≠ none) (hprep : stmt.prepared = true)
    (hbound : ∃ bind, NativeCall.mysql_stmt_bind_result bind ∈ (FetchAllSync n stmt).calls)
    (hbind : n.mysql_stmt_bind_result = 0) (hstore : n.mysql_stmt_store_result = 0)
    (hrows : n.mysql_stmt_num_rows = 0) :
    (FetchAllSync n stmt).outcome = .returned (.Array [])
      ∧ NativeCall.mysql_stmt_fetch ∉ (FetchAllSync n stmt).calls
      ∧ (FetchAllSync n stmt).stmt = stmt := by
  have hg := guards_pass stmt hinit hprep
  obtain ⟨bind, hmem⟩ := hbound
  cases hm : n.mysql_stmt_result_metadata with
  | none => simp [FetchAllSync, hg, hm] at hmem
  | some fields =>
    by_cases hfc : fields.length < n.mysql_stmt_field_count
    · simp [FetchAllSync, hg, hm, hfc] at hmem
    · simp [FetchAllSync, hg, hm, hfc, hbind, hstore, hrows, int32_of]

theorem FetchAllSync_zero_rows_witness :
    (FetchAllSync Native.success (preparedHandle 0)).outcome = .returned (.Array [])
      ∧ NativeCall.mysql_stmt_fetch ∉ (FetchAllSync Native.success (preparedHandle 0)).calls
      ∧ (FetchAllSync Native.success (preparedHandle 0)).stmt = preparedHandle 0 :=
  FetchAllSync_zero_rows Native.success (preparedHandle 0) (by decide) (by decide)
    ⟨[], by decide⟩ (by decide) (by decide) (by decide)

/-- When the output binding fails, or the materialization fails, `FetchAllSync`
returns null. -/
theorem FetchAllSync_null_on_failure (n : Native) (stmt : MysqlStatement)
    (hinit : stmt._stmt ≠ none) (hprep : stmt.prepared = true) (fields : List MYSQL_FIELD)
    (hm : n.mysql_stmt_result_metadata = some fields)
    (hfc : n.mysql_stmt_field_count ≤ fields.length)
    (hfail : n.mysql_stmt_bind_result ≠ 0 ∨ n.mysql_stmt_store_result ≠ 0) :
    (FetchAllSync n stmt).outcome = .returned (.value .Null) := by
  have hg := guards_pass stmt hinit hprep
  have hfc1 : ¬ fields.length < n.mysql_stmt_field_count := by omega
  by_cases hb : n.mysql_stmt_bind_result = 0
  · rcases hfail with h | h
    · exact absurd hb h
    · simp [FetchAllSync, hg, hm, hfc1, hb, h]
  · simp [FetchAllSync, hg, hm, hfc1, hb]

/-- C10 (the code at the failing input): on an initialized, prepared handle
whose statement has no result metadata, `FetchAllSync` does not return null; it
reads `meta->fields` through the null pointer, before any output binding. -/
theorem FetchAllSync_missing_metadata (n : Native) (stmt : MysqlStatement)
    (hinit : stmt._stmt ≠ none) (hprep : stmt.prepared = true)
    (hm : n.mysql_stmt_result_metadata = none) :
    (FetchAllSync n stmt).outcome = .fault .nullDereference
      ∧ (FetchAllSync n stmt).outcome ≠ .returned (.value .Null)
      ∧ (FetchAllSync n stmt).calls = [.mysql_stmt_field_count, .mysql_stmt_result_metadata] := by
  have hg := guards_pass stmt hinit hprep
  simp [FetchAllSync, hg, hm]

theorem FetchAllSync_missing_metadata_witness :
    (FetchAllSync noResultSet (preparedHandle 0)).outcome = .fault .nullDereference
      ∧ (FetchAllSync noResultSet (preparedHandle 0)).outcome ≠ .returned (.value .Null)
      ∧ (FetchAllSync noResultSet (preparedHandle 0)).calls
        = [.mysql_stmt_field_count, .mysql_stmt_result_metadata] :=
  FetchAllSync_missing_metadata noResultSet (preparedHandle 0) (by decide) (by decide) rfl

/-! ## Seeking -/

theorem toUint32_int (z : Int) :
    (JsNumber.finite (z : ℚ)).toUint32 = (z % 4294967296).toNat := by
  simp only [JsNumber.toUint32, JsNumber.truncate, Rat.intCast_num, Rat.intCast_den,
    Nat.cast_one, Int.tdiv_one]

/-- C6 (as amended): on an initialized, prepared handle with a stored result of
`mysql_stmt_num_rows` rows, called with the integer `offset` (the argument
macros bind the number itself and its conversion to a 32-bit unsigned): a
negative offset throws the invalid-offset error without any seek; an offset
from 0 up to 2^32 - 1 throws that error without any seek when it is at or
beyond the row count, and returns normally after seeking to exactly that
offset when it is below the row count; an offset from 2^32 on is treated as
its remainder modulo 2^32. -/
theorem DataSeekSync_bounds (n : Native) (stmt : MysqlStatement) (offset : Int)
    (hinit : stmt._stmt ≠ none) (hprep : stmt.prepared = true)
    (hstored : stmt.stored = true) :
    (offset < 0 →
        (DataSeekSync n stmt (.finite offset) (JsNumber.finite offset).toUint32).outcome
            = .thrown (.exception "Invalid row offset")
          ∧ (∀ k, NativeCall.mysql_stmt_data_seek k
                ∉ (DataSeekSync n stmt (.finite offset) (JsNumber.finite offset).toUint32).calls)
          ∧ (DataSeekSync n stmt (.finite offset) (JsNumber.finite offset).toUint32).stmt = stmt)
      ∧ (0 ≤ offset → offset < 4294967296 → (n.mysql_stmt_num_rows : Int) ≤ offset →
        (DataSeekSync n stmt (.finite offset) (JsNumber.finite offset).toUint32).outcome
            = .thrown (.exception "Invalid row offset")
          ∧ (∀ k, NativeCall.mysql_stmt_data_seek k
                ∉ (DataSeekSync n stmt (.finite offset) (JsNumber.finite offset).toUint32).calls)
          ∧ (DataSeekSync n stmt (.finite offset) (JsNumber.finite offset).toUint32).stmt = stmt)
      ∧ (0 ≤ offset → offset < 4294967296 → offset < (n.mysql_stmt_num_rows : Int) →
        (DataSeekSync n stmt (.finite offset) (JsNumber.finite offset).toUint32).outcome
            = .returned (.value .Undefined)
          ∧ (DataSeekSync n stmt (.finite offset) (JsNumber.finite offset).toUint32).calls
            = [.mysql_stmt_num_rows, .mysql_stmt_data_seek offset.toNat]
          ∧ (DataSeekSync n stmt (.finite offset) (JsNumber.finite offset).toUint32).stmt = stmt)
      ∧ (4294967296 ≤ offset →
        DataSeekSync n stmt (.finite offset) (JsNumber.finite offset).toUint32
          = DataSeekSync n stmt (.finite (offset % 4294967296 : Int))
              (JsNumber.finite (offset % 4294967296 : Int)).toUint32) := by
  have hg := guards_pass stmt hinit hprep
  have hlt : ∀ z : Int, (JsNumber.finite (z : ℚ)).ltZero = decide (z < 0) := by
    intro z
    simp [JsNumber.ltZero]
  have hmm : (offset % 4294967296).toNat % 4294967296 = (offset % 4294967296).toNat := by
    omega
  refine ⟨?_, ?_, ?_, ?_⟩
  · intro hneg
    simp [DataSeekSync, hg, MYSQLSTMT_MUSTBE_STORED, hstored, hlt, hneg]
  · intro h0 h1 hge
    have hneg : ¬ offset < 0 := by omega
    have hu : n.mysql_stmt_num_rows ≤ (offset % 4294967296).toNat := by omega
    simp [DataSeekSync, hg, MYSQLSTMT_MUSTBE_STORED, hstored, hlt, hneg, toUint32_int, hmm, hu]
  · intro h0 h1 hlo
    have hneg : ¬ offset < 0 := by omega
    have hu1 : (JsNumber.finite (offset : ℚ)).toUint32 = offset.toNat := by
      rw [toUint32_int]
      omega
    have hm : offset.toNat % 4294967296 = offset.toNat := by omega
    have hu : ¬ n.mysql_stmt_num_rows ≤ offset.toNat := by omega
    rw [hu1]
    simp [DataSeekSync, hg, MYSQLSTMT_MUSTBE_STORED, hstored, hlt, hneg, hm, hu]
  · intro hbig
    have hneg : ¬ offset < 0 := by omega
    have hneg' : ¬ offset % 4294967296 < 0 := by omega
    have hmod : offset % 4294967296 % 4294967296 = offset % 4294967296 := by omega
    simp only [DataSeekSync, hg, MYSQLSTMT_MUSTBE_STORED, hstored, hlt, hneg, hneg',
      toUint32_int, hmod]

theorem DataSeekSync_bounds_witness :
    ((DataSeekSync (rowCount 3) storedHandle (.finite (-1 : Int))
          (JsNumber.finite (-1 : Int)).toUint32).outcome
          = .thrown (.exception "Invalid row offset")
        ∧ (∀ k, NativeCall.mysql_stmt_data_seek k
              ∉ (DataSeekSync (rowCount 3) storedHandle (.finite (-1 : Int))
                  (JsNumber.finite (-1 : Int)).toUint32).calls)
        ∧ (DataSeekSync (rowCount 3) storedHandle (.finite (-1 : Int))
            (JsNumber.finite (-1 : Int)).toUint32).stmt = storedHandle)
      ∧ ((DataSeekSync (rowCount 3) storedHandle (.finite (3 : Int))
          (JsNumber.finite (3 : Int)).toUint32).outcome
          = .thrown (.exception "Invalid row offset")
        ∧ (∀ k, NativeCall.mysql_stmt_data_seek k
              ∉ (DataSeekSync (rowCount 3) storedHandle (.finite (3 : Int))
                  (JsNumber.finite (3 : Int)).toUint32).calls)
        ∧ (DataSeekSync (rowCount 3) storedHandle (.finite (3 : Int))
            (JsNumber.finite (3 : Int)).toUint32).stmt = storedHandle)
      ∧ ((DataSeekSync (rowCount 3) storedHandle (.finite (2 : Int))
          (JsNumber.finite (2 : Int)).toUint32).outcome
          = .returned (.value .Undefined)
        ∧ (DataSeekSync (rowCount 3) storedHandle (.finite (2 : Int))
            (JsNumber.finite (2 : Int)).toUint32).calls
          = [.mysql_stmt_num_rows, .mysql_stmt_data_seek (2 : Int).toNat]
        ∧ (DataSeekSync (rowCount 3) storedHandle (.finite (2 : Int))
            (JsNumber.finite (2 : Int)).toUint32).stmt = storedHandle)
      ∧ (DataSeekSync (rowCount 3) storedHandle (.finite (4294967298 : Int))
            (JsNumber.finite (4294967298 : Int)).toUint32
          = DataSeekSync (rowCount 3) storedHandle (.finite (4294967298 % 4294967296 : Int))
              (JsNumber.finite (4294967298 % 4294967296 : Int)).toUint32) :=
  ⟨(DataSeekSync_bounds (rowCount 3) storedHandle (-1) (by decide) (by decide)
      (by decide)).1 (by decide),
   (DataSeekSync_bounds (rowCount 3) storedHandle 3 (by decide) (by decide)
      (by decide)).2.1 (by decide) (by decide) (by decide),
   (DataSeekSync_bounds (rowCount 3) storedHandle 2 (by decide) (by decide)
      (by decide)).2.2.1 (by decide) (by decide) (by decide),
   (DataSeekSync_bounds (rowCount 3) storedHandle 4294967298 (by decide) (by decide)
      (by decide)).2.2.2 (by decide)⟩

/-- C6 (as stated) fails: with 3 stored rows the offset 4294967296, which is
beyond the row count, does not throw; it is held as 0 in the 32-bit unsigned,
the call seeks to row 0 and returns. -/
theorem DataSeekSync_bounds_counterexample :
    (storedHandle._stmt ≠ none ∧ storedHandle.prepared = true ∧ storedHandle.stored = true
        ∧ ((rowCount 3).mysql_stmt_num_rows : Int) ≤ 4294967296)
      ∧ (DataSeekSync (rowCount 3) storedHandle (.finite (4294967296 : Int))
          (JsNumber.finite (4294967296 : Int)).toUint32).outcome
          = .returned (.value .Undefined)
      ∧ (DataSeekSync (rowCount 3) storedHandle (.finite (4294967296 : Int))
          (JsNumber.finite (4294967296 : Int)).toUint32).calls
          = [.mysql_stmt_num_rows, .mysql_stmt_data_seek 0] := by
  decide

/-! ## Closing -/

/-- A successful close leaves the resource pointer null. -/
theorem CloseSync_true_nulls (n : Native) (stmt : MysqlStatement)
    (h : (CloseSync n stmt).outcome = .returned (.value (.Boolean true))) :
    (CloseSync n stmt).stmt._stmt = none := by
  cases hs : stmt._stmt with
  | none => simp [CloseSync, MYSQLSTMT_MUSTBE_INITIALIZED, hs, Step.guardFailed]
  | some p =>
    by_cases hc : n.mysql_stmt_close = 0
    · simp [CloseSync, MYSQLSTMT_MUSTBE_INITIALIZED, hs, hc]
    · simp [CloseSync, MYSQLSTMT_MUSTBE_INITIALIZED, hs, hc] at h

/-- On a handle whose resource pointer is null every method stops at its first
guard. -/
theorem run_not_initialized (n : Native) (castNaN : Int) (op : Operation)
    (stmt : MysqlStatement) (h : stmt._stmt = none) :
    op.run n castNaN stmt = Step.guardFailed .notInitialized stmt := by
  cases op <;>
    simp [Operation.run, ParamCountGetter, AffectedRowsSync, AttrGetSync, AttrSetSync,
      BindParamsSync, CloseSync, DataSeekSync, ErrnoSync, ErrorSync, ExecuteSync, FetchAllSync,
      FieldCountSync, FreeResultSync, LastInsertIdSync, NumRowsSync, PrepareSync, ResetSync,
      ResultMetadataSync, SendLongDataSync, StoreResultSync, SqlStateSync,
      initializedAndPrepared, MYSQLSTMT_MUSTBE_INITIALIZED, h]

/-- A handle whose resource pointer is null stays as it is under any sequence
of methods. -/
theorem runAll_not_initialized (castNaN : Int) :
    ∀ (ops : List (Native × Operation)) (stmt : MysqlStatement), stmt._stmt = none →
      runAll castNaN ops stmt = stmt := by
  intro ops
  induction ops with
  | nil => intro stmt _; rfl
  | cons head rest ih =>
    intro stmt h
    have hstep : (head.2.run head.1 castNaN stmt).stmt = stmt := by
      rw [run_not_initialized head.1 castNaN head.2 stmt h]
      rfl
    show runAll castNaN rest (head.2.run head.1 castNaN stmt).stmt = stmt
    rw [hstep]
    exact ih stmt h

/-- C7: once `CloseSync` has returned true, every method run on the handle
(with any arguments, whatever the client library would answer) throws the
not-initialized error, makes no native call and leaves the handle as it is, so
the same holds after any number of further calls; and when the native close
fails on an initialized handle, `CloseSync` returns false and the handle, still
initialized, is unchanged. -/
theorem closed_handle_rejects (n : Native) (stmt : MysqlStatement) :
    ((CloseSync n stmt).outcome = .returned (.value (.Boolean true)) →
        (∀ (n' : Native) (castNaN : Int) (op : Operation),
          op.run n' castNaN (CloseSync n stmt).stmt
            = { outcome := .thrown .notInitialized, stmt := (CloseSync n stmt).stmt,
                calls := [] })
          ∧ (∀ (castNaN : Int) (ops : List (Native × Operation)),
              runAll castNaN ops (CloseSync n stmt).stmt = (CloseSync n stmt).stmt))
      ∧ (stmt._stmt ≠ none → n.mysql_stmt_close ≠ 0 →
          (CloseSync n stmt).outcome = .returned (.value (.Boolean false))
            ∧ (CloseSync n stmt).stmt = stmt
            ∧ (CloseSync n stmt).calls = [.mysql_stmt_close]) := by
  constructor
  · intro h
    have hnull := CloseSync_true_nulls n stmt h
    exact ⟨fun n' castNaN op => run_not_initialized n' castNaN op _ hnull,
      fun castNaN ops => runAll_not_initialized castNaN ops _ hnull⟩
  · intro hinit hc
    cases hs : stmt._stmt with
    | none => exact absurd hs hinit
    | some p => simp [CloseSync, MYSQLSTMT_MUSTBE_INITIALIZED, hs, hc]

theorem closed_handle_rejects_witness :
    (Operation.fetchAllSync.run Native.success 0 (CloseSync Native.success (preparedHandle 1)).stmt
        = { outcome := .thrown .notInitialized,
            stmt := (CloseSync Native.success (preparedHandle 1)).stmt, calls := [] })
      ∧ (runAll 0 [(Native.success, .executeSync), (Native.success, .prepareSync "SELECT 1")]
            (CloseSync Native.success (preparedHandle 1)).stmt
          = (CloseSync Native.success (preparedHandle 1)).stmt)
      ∧ ((CloseSync closeFails (preparedHandle 1)).outcome = .returned (.value (.Boolean false))
          ∧ (CloseSync closeFails (preparedHandle 1)).stmt = preparedHandle 1
          ∧ (CloseSync closeFails (preparedHandle 1)).calls = [.mysql_stmt_close]) :=
  ⟨((closed_handle_rejects Native.success (preparedHandle 1)).1 (by decide)).1 Native.success 0
      .fetchAllSync,
   ((closed_handle_rejects Native.success (preparedHandle 1)).1 (by decide)).2 0 _,
   (closed_handle_rejects closeFails (preparedHandle 1)).2 (by decide) (by decide)⟩

/-- C8 (as amended): once `CloseSync` has returned true, calling it again does
not return true: it throws the not-initialized error, makes no native call and
leaves the handle state unchanged. -/
theorem CloseSync_again (n n' : Native) (stmt : MysqlStatement)
    (h : (CloseSync n stmt).outcome = .returned (.value (.Boolean true))) :
    CloseSync n' (CloseSync n stmt).stmt
      = { outcome := .thrown .notInitialized, stmt := (CloseSync n stmt).stmt, calls := [] } := by
  exact run_not_initialized n' 0 .closeSync _ (CloseSync_true_nulls n stmt h)

theorem CloseSync_again_witness :
    CloseSync Native.success (CloseSync Native.success (preparedHandle 1)).stmt
      = { outcome := .thrown .notInitialized,
          stmt := (CloseSync Native.success (preparedHandle 1)).stmt, calls := [] } :=
  CloseSync_again Native.success Native.success (preparedHandle 1) (by decide)

/-- C8 (as stated) fails: the first close returns true, and the second one,
with the client library ready to report success again, does not return true. -/
theorem CloseSync_again_counterexample :
    (CloseSync Native.success (preparedHandle 1)).outcome = .returned (.value (.Boolean true))
      ∧ (CloseSync Native.success (CloseSync Native.success (preparedHandle 1)).stmt).outcome
        = .thrown .notInitialized
      ∧ (CloseSync Native.success (CloseSync Native.success (preparedHandle 1)).stmt).outcome
        ≠ .returned (.value (.Boolean true)) := by
  decide

/-! ## Preparing -/

/-- When the native prepare fails, `PrepareSync` returns false, clears
`prepared` and changes nothing else. -/
theorem PrepareSync_failure (n : Native) (stmt : MysqlStatement) (query : String)
    (hinit : stmt._stmt ≠ none) (hrc : n.mysql_stmt_prepare ≠ 0) :
    (PrepareSync n stmt query).outcome = .returned (.value (.Boolean false))
      ∧ (PrepareSync n stmt query).stmt = { stmt with prepared := false } := by
  cases hs : stmt._stmt with
  | none => exact absurd hs hinit
  | some p => simp [PrepareSync, MYSQLSTMT_MUSTBE_INITIALIZED, hs, hrc]

/-- When the native prepare succeeds with at least one parameter on a handle
whose slot array is null or live, `PrepareSync` returns true and leaves exactly
`param_count` zeroed slots. -/
theorem PrepareSync_success_params (n : Native) (stmt : MysqlStatement) (query : String)
    (hinit : stmt._stmt ≠ none) (hrc : n.mysql_stmt_prepare = 0)
    (hbinds : stmt.binds ≠ .released) (hpos : 0 < n.mysql_stmt_param_count) :
    (PrepareSync n stmt query).outcome = .returned (.value (.Boolean true))
      ∧ (PrepareSync n stmt query).stmt
        = { stmt with prepared := true, param_count := n.mysql_stmt_param_count,
                      binds := .live (List.replicate n.mysql_stmt_param_count MYSQL_BIND.zero) } := by
  cases hs : stmt._stmt with
  | none => exact absurd hs hinit
  | some p =>
    cases hb : stmt.binds with
    | released => exact absurd hb hbinds
    | NULL => simp [PrepareSync, MYSQLSTMT_MUSTBE_INITIALIZED, hs, hrc, hb, deleteBinds, hpos]
    | live slots =>
      simp [PrepareSync, MYSQLSTMT_MUSTBE_INITIALIZED, hs, hrc, hb, deleteBinds, hpos]

/-- C9 (the code at the failing input): re-preparing a handle that holds one
slot for a statement without parameters returns true with `param_count` 0, but
`binds` keeps the address of the released array instead of becoming null; the
next `PrepareSync`, although the native prepare succeeds, deletes that array a
second time instead of returning true. -/
theorem PrepareSync_zero_params_dangling :
    (preparedHandle 1).binds = .live [MYSQL_BIND.zero]
      ∧ (PrepareSync Native.success (preparedHandle 1) "SELECT 1").outcome
        = .returned (.value (.Boolean true))
      ∧ (PrepareSync Native.success (preparedHandle 1) "SELECT 1").stmt
        = { _stmt := some 1, binds := .released, param_count := 0, prepared := true,
            stored := false }
      ∧ (PrepareSync Native.success
            (PrepareSync Native.success (preparedHandle 1) "SELECT 1").stmt "SELECT 2").outcome
        = .fault .doubleDelete := by
  decide

/-! ## The representation invariant -/

/-- The binding loop never changes what kind of pointer `binds` is, nor the
number of slots. -/
theorem bindParamsLoop_shape (castNaN : Int) :
    ∀ (vals : List JsValue) (i : Nat) (slots : List MYSQL_BIND),
      ∃ slots', (bindParamsLoop castNaN vals i (.live slots)).2 = .live slots'
        ∧ slots'.length = slots.length := by
  intro vals
  induction vals with
  | nil => intro i slots; exact ⟨slots, rfl, rfl⟩
  | cons v rest ih =>
    intro i slots
    cases hb : bindParam castNaN v with
    | error e => exact ⟨slots, by simp [bindParamsLoop, hb], rfl⟩
    | ok f =>
      by_cases hi : i < slots.length
      · obtain ⟨slots', h1, h2⟩ := ih (i + 1) (List.modify f i slots)
        exact ⟨slots', by simpa [bindParamsLoop, hb, BindArray.assign, hi] using h1,
          by simpa using h2⟩
      · exact ⟨slots, by simp [bindParamsLoop, hb, BindArray.assign, hi], rfl⟩

theorem BindParamsSync_wellFormed (n : Native) (castNaN : Int) (stmt : MysqlStatement)
    (js_params : List JsValue) (h : stmt.wellFormed) :
    (BindParamsSync n castNaN stmt js_params).stmt.wellFormed := by
  unfold BindParamsSync
  split
  · exact h
  · split
    · exact h
    · have hkeep : ∀ binds, (∀ slots, stmt.binds = .live slots →
            ∃ slots', binds = .live slots' ∧ slots'.length = slots.length) →
          MysqlStatement.wellFormed { stmt with binds := binds } := by
        intro binds hb hprep hpos
        obtain ⟨slots, hs, hl⟩ := h hprep hpos
        obtain ⟨slots', hs', hl'⟩ := hb slots hs
        exact ⟨slots', hs', by simpa [hl] using hl'⟩
      have hshape : ∀ slots, stmt.binds = .live slots →
          ∃ slots', (bindParamsLoop castNaN js_params 0 stmt.binds).2 = .live slots'
            ∧ slots'.length = slots.length := by
        intro slots hs
        rw [hs]
        exact bindParamsLoop_shape castNaN js_params 0 slots
      split
      · rename_i out binds heq
        apply hkeep
        intro slots hs
        have := hshape slots hs
        rw [heq] at this
        exact this
      · rename_i binds heq
        apply hkeep
        intro slots hs
        have := hshape slots hs
        rw [heq] at this
        exact this

theorem PrepareSync_wellFormed (n : Native) (stmt : MysqlStatement) (query : String) :
    (PrepareSync n stmt query).stmt.wellFormed ∨ (PrepareSync n stmt query).stmt = stmt := by
  cases hg : MYSQLSTMT_MUSTBE_INITIALIZED stmt with
  | some e => right; simp [PrepareSync, hg, Step.guardFailed]
  | none =>
    left
    by_cases hrc : n.mysql_stmt_prepare = 0
    · cases hd : deleteBinds stmt.binds with
      | none =>
        intro hp
        simp [PrepareSync, hg, hrc, hd] at hp
      | some binds0 =>
        intro _ hpos
        simp only [PrepareSync, hg, hrc, hd] at hpos ⊢
        simp at hpos
        simp [hpos]
    · intro hp
      simp [PrepareSync, hg, hrc] at hp

/-- Every method preserves the representation invariant. -/
theorem run_wellFormed (n : Native) (castNaN : Int) (op : Operation) (stmt : MysqlStatement)
    (h : stmt.wellFormed) : (op.run n castNaN stmt).stmt.wellFormed := by
  cases op with
  | bindParamsSync js_params => exact BindParamsSync_wellFormed n castNaN stmt js_params h
  | prepareSync query =>
    rcases PrepareSync_wellFormed n stmt query with hw | he
    · exact hw
    · simp only [Operation.run]; rw [he]; exact h
  | closeSync =>
    simp only [Operation.run, CloseSync]
    split
    · exact h
    · split
      · exact h
      · exact h
  | storeResultSync =>
    simp only [Operation.run, StoreResultSync]
    split
    · exact h
    · split
      · exact h
      · exact h
  | paramCount => simp only [Operation.run, ParamCountGetter]; split <;> exact h
  | affectedRowsSync => simp only [Operation.run, AffectedRowsSync]; split <;> exact h
  | attrGetSync k =>
    simp only [Operation.run, AttrGetSync]
    repeat' split
    all_goals exact h
  | attrSetSync k b u =>
    simp only [Operation.run, AttrSetSync]
    repeat' split
    all_goals exact h
  | dataSeekSync d u =>
    simp only [Operation.run, DataSeekSync]
    repeat' split
    all_goals exact h
  | errnoSync => simp only [Operation.run, ErrnoSync]; split <;> exact h
  | errorSync => simp only [Operation.run, ErrorSync]; split <;> exact h
  | executeSync => simp only [Operation.run, ExecuteSync]; split <;> exact h
  | fetchAllSync =>
    simp only [Operation.run, FetchAllSync]
    repeat' split
    all_goals exact h
  | fieldCountSync => simp only [Operation.run, FieldCountSync]; split <;> exact h
  | freeResultSync => simp only [Operation.run, FreeResultSync]; split <;> exact h
  | lastInsertIdSync => simp only [Operation.run, LastInsertIdSync]; split <;> exact h
  | numRowsSync =>
    simp only [Operation.run, NumRowsSync]
    repeat' split
    all_goals exact h
  | resetSync => simp only [Operation.run, ResetSync]; split <;> exact h
  | resultMetadataSync =>
    simp only [Operation.run, ResultMetadataSync]
    repeat' split
    all_goals exact h
  | sendLongDataSync k data => simp only [Operation.run, SendLongDataSync]; split <;> exact h
  | sqlStateSync => simp only [Operation.run, SqlStateSync]; split <;> exact h

/-- Every handle reached from a fresh one by any sequence of methods satisfies
the representation invariant. -/
theorem runAll_wellFormed (castNaN : Int) :
    ∀ (ops : List (Native × Operation)) (stmt : MysqlStatement), stmt.wellFormed →
      (runAll castNaN ops stmt).wellFormed := by
  intro ops
  induction ops with
  | nil => intro stmt h; exact h
  | cons head rest ih =>
    intro stmt h
    exact ih _ (run_wellFormed head.1 castNaN head.2 stmt h)

theorem new_wellFormed (my_stmt : Option Nat) : (MysqlStatement.new my_stmt).wellFormed := by
  intro hp
  simp [MysqlStatement.new] at hp

/-! ## Dates that convert -/

theorem tdiv_1000_bounds (m : Int) (h1 : -8640000000000000 ≤ m) (h2 : m ≤ 8640000000000000) :
    -8640000000000 ≤ Int.tdiv m 1000 ∧ Int.tdiv m 1000 ≤ 8640000000000 := by
  by_cases hm : 0 ≤ m
  · rw [Int.tdiv_eq_ediv hm (by norm_num)]
    omega
  · have hneg : m = -(-m) := by omega
    rw [hneg, Int.neg_tdiv, Int.tdiv_eq_ediv (by omega) (by norm_num)]
    omega

theorem gmtime_r_isSome (t : Int) (h1 : -8640000000000 ≤ t) (h2 : t ≤ 8640000000000) :
    (gmtime_r t).isSome = true := by
  have hy : -2147483648 ≤ (civilFromDays (t / 86400)).1 - 1900
      ∧ (civilFromDays (t / 86400)).1 - 1900 ≤ 2147483647 := by
    simp only [civilFromDays]
    split <;> omega
  simp only [gmtime_r, if_pos hy, Option.isSome_some]

/-- Every Date with a time value (a Date that is not an Invalid Date)
converts: its time value lies within 8.64e15 milliseconds of the epoch. -/
theorem valid_date_converts (castNaN : Int) (m : Int) (h1 : -8640000000000000 ≤ m)
    (h2 : m ≤ 8640000000000000) : dateConverts castNaN (.date (some m)) := by
  have hb := tdiv_1000_bounds m h1 h2
  have ht : timeT_of castNaN (JsValue.date (some m)).NumberValue = Int.tdiv m 1000 := by
    simp only [JsValue.NumberValue, timeT_of, Rat.intCast_num, Rat.intCast_den]
    have hr : -9223372036854775808 ≤ Int.tdiv m 1000 ∧ Int.tdiv m 1000 ≤ 9223372036854775807 := by
      omega
    simp [hr]
  simp only [dateConverts, ht]
  exact gmtime_r_isSome _ hb.1 hb.2

/-! ## The calendar of `gmtime_r` -/

/-- Within one 400-year era the year-of-era and day-of-year computed by
`civilFromDays` are in range. -/
theorem era_year_bounds (doe : Int) (h0 : 0 ≤ doe) (h1 : doe ≤ 146096) (yoe doy : Int)
    (hyoe : yoe = (doe - doe / 1460 + doe / 36524 - doe / 146096) / 365)
    (hdoy : doy = doe - (365 * yoe + yoe / 4 - yoe / 100)) :
    0 ≤ yoe ∧ yoe ≤ 399 ∧ 0 ≤ doy ∧ doy ≤ 365 := by
  have hb : doe / 36524 = 0 ∨ doe / 36524 = 1 ∨ doe / 36524 = 2 ∨ doe / 36524 = 3
      ∨ doe / 36524 = 4 := by omega
  have hc : doe / 146096 = 0 ∨ doe / 146096 = 1 := by omega
  have hf : yoe / 100 = 0 ∨ yoe / 100 = 1 ∨ yoe / 100 = 2 ∨ yoe / 100 = 3 := by omega
  refine ⟨by omega, by omega, ?_, ?_⟩ <;>
    rcases hb with hb | hb | hb | hb | hb <;> rcases hc with hc | hc <;>
      rcases hf with hf | hf | hf | hf <;> omega

/-- A March-based year has a 366th day only when the civil year that follows is
a leap year. -/
theorem era_leap_day (doe : Int) (h0 : 0 ≤ doe) (h1 : doe ≤ 146096) (yoe doy : Int)
    (hyoe : yoe = (doe - doe / 1460 + doe / 36524 - doe / 146096) / 365)
    (hdoy : doy = doe - (365 * yoe + yoe / 4 - yoe / 100)) (h365 : doy = 365) :
    (yoe + 1) % 4 = 0 ∧ ((yoe + 1) % 100 ≠ 0 ∨ (yoe + 1) % 400 = 0) := by
  have hb : doe / 36524 = 0 ∨ doe / 36524 = 1 ∨ doe / 36524 = 2 ∨ doe / 36524 = 3
      ∨ doe / 36524 = 4 := by omega
  have hc : doe / 146096 = 0 ∨ doe / 146096 = 1 := by omega
  have hf : yoe / 100 = 0 ∨ yoe / 100 = 1 ∨ yoe / 100 = 2 ∨ yoe / 100 = 3 := by omega
  have hr : yoe % 4 = 0 ∨ yoe % 4 = 1 ∨ yoe % 4 = 2 ∨ yoe % 4 = 3 := by omega
  have ha : doe / 1460 = yoe / 4 ∨ doe / 1460 = yoe / 4 + 1 ∨ doe / 1460 = yoe / 4 - 1 := by
    rcases hb with hb | hb | hb | hb | hb <;> rcases hc with hc | hc <;>
      rcases hf with hf | hf | hf | hf <;> rcases hr with hr | hr | hr | hr <;> omega
  rcases hb with hb | hb | hb | hb | hb <;> rcases hc with hc | hc <;>
    rcases hf with hf | hf | hf | hf <;> rcases hr with hr | hr | hr | hr <;>
    rcases ha with ha | ha | ha <;> omega

/-- Month and day of month from the day of a March-based year. -/
theorem month_day (doy mp d m : Int) (h0 : 0 ≤ doy) (h1 : doy ≤ 365)
    (hmp : mp = (5 * doy + 2) / 153) (hd : d = doy - (153 * mp + 2) / 5 + 1)
    (hm : m = if mp < 10 then mp + 3 else mp - 9) :
    1 ≤ m ∧ m ≤ 12 ∧ 1 ≤ d ∧ d ≤ 31
      ∧ (m ≤ 2 → mp = m + 9) ∧ (2 < m → mp = m - 3)
      ∧ (m = 4 ∨ m = 6 ∨ m = 9 ∨ m = 11 → d ≤ 30)
      ∧ (m = 2 → d ≤ 29 ∧ (doy ≤ 364 → d ≤ 28)) := by
  have hmpc : 0 ≤ mp ∧ mp ≤ 11 := by omega
  by_cases hlt : mp < 10
  · rw [if_pos hlt] at hm
    have hmpc : mp = 0 ∨ mp = 1 ∨ mp = 2 ∨ mp = 3 ∨ mp = 4 ∨ mp = 5 ∨ mp = 6 ∨ mp = 7 ∨ mp = 8
      ∨ mp = 9 := by omega
    rcases hmpc with h | h | h | h | h | h | h | h | h | h <;> subst h <;> omega
  · rw [if_neg hlt] at hm
    have hmpc : mp = 10 ∨ mp = 11 := by omega
    rcases hmpc with h | h <;> subst h <;> omega

/-- The steps of `civilFromDays`, named one by one: from 1 March of year 0 on
they yield a date of the Gregorian calendar (non-negative year, month 1..12,
day within the month) whose day number is the one given. -/
theorem civil_steps (days era doe yoe doy mp d m y : Int) (hz : -719468 ≤ days)
    (hera : era = (days + 719468) / 146097) (hdoe : doe = days + 719468 - era * 146097)
    (hyoe : yoe = (doe - doe / 1460 + doe / 36524 - doe / 146096) / 365)
    (hdoy : doy = doe - (365 * yoe + yoe / 4 - yoe / 100))
    (hmp : mp = (5 * doy + 2) / 153) (hd : d = doy - (153 * mp + 2) / 5 + 1)
    (hm : m = if mp < 10 then mp + 3 else mp - 9)
    (hy : y = yoe + era * 400 + (if m ≤ 2 then 1 else 0)) :
    0 ≤ y ∧ 1 ≤ m ∧ m ≤ 12 ∧ 1 ≤ d
      ∧ d ≤ (if m = 2 then (if y % 4 = 0 ∧ (y % 100 ≠ 0 ∨ y % 400 = 0) then 29 else 28)
             else if m = 4 ∨ m = 6 ∨ m = 9 ∨ m = 11 then 30 else 31)
      ∧ daysFromCivil y m d = days := by
  have h0 : 0 ≤ doe := by omega
  have h1 : doe ≤ 146096 := by omega
  have he : 0 ≤ era := by omega
  obtain ⟨hy0, hy1, hd0, hd1⟩ := era_year_bounds doe h0 h1 yoe doy hyoe hdoy
  have hleap := era_leap_day doe h0 h1 yoe doy hyoe hdoy
  obtain ⟨m1, m2, d1, d2, hfeb, hmar, h30, h29⟩ := month_day doy mp d m hd0 hd1 hmp hd hm
  clear hm hmp hyoe
  by_cases hm2 : m ≤ 2
  · rw [if_pos hm2] at hy
    have hmp9 := hfeb hm2
    refine ⟨by omega, m1, m2, d1, ?_, ?_⟩
    · by_cases hf : m = 2
      · rw [if_pos hf]
        obtain ⟨hd29, hd28⟩ := h29 hf
        by_cases hl : y % 4 = 0 ∧ (y % 100 ≠ 0 ∨ y % 400 = 0)
        · rw [if_pos hl]; exact hd29
        · rw [if_neg hl]
          apply hd28
          by_contra hc
          have hl1 := hleap (by omega)
          apply hl
          omega
      · rw [if_neg hf, if_neg (by omega)]
        exact d2
    · simp only [daysFromCivil, if_pos hm2]
      have hy' : y - 1 = yoe + era * 400 := by omega
      rw [hy']
      have hq : (yoe + era * 400) / 400 = era := by omega
      have hr : yoe + era * 400 - era * 400 = yoe := by omega
      rw [hq, hr]
      clear hleap h29 h30 hfeb hmar hq hr hy' hy
      omega
  · rw [if_neg hm2] at hy
    have hmp3 := hmar (by omega)
    refine ⟨by omega, m1, m2, d1, ?_, ?_⟩
    · rw [if_neg (by omega)]
      by_cases h4 : m = 4 ∨ m = 6 ∨ m = 9 ∨ m = 11
      · rw [if_pos h4]; exact h30 h4
      · rw [if_neg h4]; exact d2
    · simp only [daysFromCivil, if_neg hm2]
      have hy' : y = yoe + era * 400 := by omega
      rw [hy']
      have hq : (yoe + era * 400) / 400 = era := by omega
      have hr : yoe + era * 400 - era * 400 = yoe := by omega
      rw [hq, hr]
      clear hleap h29 h30 hfeb hmar hq hr hy' hy
      omega

theorem civilFromDays_spec (days : Int) (hz : -719468 ≤ days) :
    0 ≤ (civilFromDays days).1
      ∧ 1 ≤ (civilFromDays days).2.1 ∧ (civilFromDays days).2.1 ≤ 12
      ∧ 1 ≤ (civilFromDays days).2.2
      ∧ (civilFromDays days).2.2
          ≤ (if (civilFromDays days).2.1 = 2 then
               (if (civilFromDays days).1 % 4 = 0
                   ∧ ((civilFromDays days).1 % 100 ≠ 0 ∨ (civilFromDays days).1 % 400 = 0)
                then 29 else 28)
             else if (civilFromDays days).2.1 = 4 ∨ (civilFromDays days).2.1 = 6
                 ∨ (civilFromDays days).2.1 = 9 ∨ (civilFromDays days).2.1 = 11 then 30
             else 31)
      ∧ daysFromCivil (civilFromDays days).1 (civilFromDays days).2.1 (civilFromDays days).2.2
          = days :=
  civil_steps days _ _ _ _ _ _ _ _ hz rfl rfl rfl rfl rfl rfl rfl rfl

theorem valid_year_bound (days : Int) (hlo : -719468 ≤ days) (hhi : days ≤ 100000000) :
    (civilFromDays days).1 ≤ 300000 := by
  simp only [civilFromDays]
  split <;> omega

theorem uint32_of_small (x : Int) (h0 : 0 ≤ x) (h1 : x < 4294967296) :
    uint32_of x = x.toNat := by
  simp only [uint32_of]
  congr 1
  omega

theorem daysInMonth_cast (y m : Int) (hy : 0 ≤ y) (hm : 0 ≤ m) :
    ((daysInMonth y.toNat m.toNat : Nat) : Int)
      = (if m = 2 then (if y % 4 = 0 ∧ (y % 100 ≠ 0 ∨ y % 400 = 0) then 29 else 28)
         else if m = 4 ∨ m = 6 ∨ m = 9 ∨ m = 11 then 30 else 31) := by
  simp only [daysInMonth]
  split_ifs <;> omega

/-- From 1 March of year 0 to the end of the range of script dates, `gmtime_r`
succeeds and the fields `BindParamsSync` stores from its result are the UTC
calendar fields of that second. -/
theorem gmtime_r_fields (t : Int) (hlo : -62162035200 ≤ t) (hhi : t ≤ 8640000000000) :
    ∃ d, gmtime_r t = some d
      ∧ IsUtcFieldsOf (1000 * t)
          { year := uint32_of (d.tm_year + 1900), month := uint32_of (d.tm_mon + 1),
            day := uint32_of d.tm_mday, hour := uint32_of d.tm_hour,
            minute := uint32_of d.tm_min, second := uint32_of d.tm_sec } := by
  have hdays : -719468 ≤ t / 86400 := by omega
  obtain ⟨y0, m1, m2, d1, d2, hback⟩ := civilFromDays_spec (t / 86400) hdays
  generalize hc : civilFromDays (t / 86400) = c at y0 m1 m2 d1 d2 hback
  have hyhi : c.1 ≤ 300000 := by
    have := valid_year_bound (t / 86400) (by omega) (by omega)
    rw [hc] at this
    exact this
  have hy : -2147483648 ≤ c.1 - 1900 ∧ c.1 - 1900 ≤ 2147483647 := by omega
  have hg : gmtime_r t = some (tm.mk (t % 86400 % 60) (t % 86400 / 60 % 60)
      (t % 86400 / 3600) c.2.2 (c.2.1 - 1) (c.1 - 1900)) := by
    simp only [gmtime_r, hc, if_pos hy]
  refine ⟨_, hg, ?_⟩
  have hrem0 : 0 ≤ t % 86400 := by omega
  have hrem1 : t % 86400 < 86400 := by omega
  have hd31 : c.2.2 ≤ 31 := by
    have := d2
    split_ifs at this <;> omega
  simp only [IsUtcFieldsOf, secondsFromFields]
  rw [uint32_of_small (c.1 - 1900 + 1900) (by omega) (by omega),
    uint32_of_small (c.2.1 - 1 + 1) (by omega) (by omega),
    uint32_of_small c.2.2 (by omega) (by omega),
    uint32_of_small (t % 86400 / 3600) (by omega) (by omega),
    uint32_of_small (t % 86400 / 60 % 60) (by omega) (by omega),
    uint32_of_small (t % 86400 % 60) (by omega) (by omega)]
  have e1 : c.1 - 1900 + 1900 = c.1 := by omega
  have e2 : c.2.1 - 1 + 1 = c.2.1 := by omega
  rw [e1, e2]
  have hdm := daysInMonth_cast c.1 c.2.1 y0 (by omega)
  rw [← hdm] at d2
  have cy : ((c.1.toNat : Nat) : Int) = c.1 := Int.toNat_of_nonneg y0
  have cm : ((c.2.1.toNat : Nat) : Int) = c.2.1 := Int.toNat_of_nonneg (by omega)
  have cd : ((c.2.2.toNat : Nat) : Int) = c.2.2 := Int.toNat_of_nonneg (by omega)
  refine ⟨by omega, by omega, by omega, by omega, by omega, by omega, by omega, ?_⟩
  rw [cy, cm, cd, hback]
  omega

/-! ## Bound dates -/

theorem timeT_of_date (castNaN : Int) (m : Int) (h1 : -8640000000000000 ≤ m)
    (h2 : m ≤ 8640000000000000) :
    timeT_of castNaN (JsValue.date (some m)).NumberValue = Int.tdiv m 1000 := by
  have hb := tdiv_1000_bounds m h1 h2
  simp only [JsValue.NumberValue, timeT_of, Rat.intCast_num, Rat.intCast_den]
  have hr : -9223372036854775808 ≤ Int.tdiv m 1000 ∧ Int.tdiv m 1000 ≤ 9223372036854775807 := by
    omega
  simp [hr]

/-- Truncation toward zero and rounding down agree on a millisecond count that
is not negative or is a whole number of seconds. -/
theorem tdiv_eq_floor (m : Int) (h : 0 ≤ m ∨ m % 1000 = 0) : Int.tdiv m 1000 = m / 1000 := by
  rcases h with h | h
  · exact Int.tdiv_eq_ediv h (by norm_num)
  · exact Int.tdiv_eq_ediv_of_dvd (Int.dvd_of_emod_eq_zero h)

/-- For a date from 1 March of year 0 on whose millisecond count is not
negative or is a whole number of seconds, the loop body stores the UTC
calendar fields of the instant in a DateTime slot, whatever the platform does
with NaN (no time zone enters the computation). -/
theorem bindParam_date_fields (castNaN : Int) (m : Int) (hlo : -62162035200000 ≤ m)
    (hhi : m ≤ 8640000000000000) (hfloor : 0 ≤ m ∨ m % 1000 = 0) :
    ∃ f t, bindParam castNaN (.date (some m)) = .ok f ∧ IsUtcFieldsOf m t
      ∧ ∀ old, (f old).buffer_type = MYSQL_TYPE_DATETIME ∧ (f old).buffer = .MYSQL_TIME t := by
  have ht := timeT_of_date castNaN m (by omega) hhi
  rw [tdiv_eq_floor m hfloor] at ht
  obtain ⟨d, hd, hutc⟩ := gmtime_r_fields (m / 1000) (by omega) (by omega)
  refine ⟨fun b => { b with
      buffer_type := MYSQL_TYPE_DATETIME,
      buffer := .MYSQL_TIME (MYSQL_TIME.mk (uint32_of (d.tm_year + 1900))
        (uint32_of (d.tm_mon + 1)) (uint32_of d.tm_mday) (uint32_of d.tm_hour)
        (uint32_of d.tm_min) (uint32_of d.tm_sec)),
      is_null := none },
    MYSQL_TIME.mk (uint32_of (d.tm_year + 1900)) (uint32_of (d.tm_mon + 1))
      (uint32_of d.tm_mday) (uint32_of d.tm_hour) (uint32_of d.tm_min) (uint32_of d.tm_sec),
    ?_, ?_, fun old => ⟨rfl, rfl⟩⟩
  · simp only [bindParam, JsValue.IsUndefined, JsValue.IsNull, JsValue.IsInt32,
      JsValue.IsBoolean, JsValue.IsUint32, JsValue.IsNumber, JsValue.IsDate, ht, hd]
    simp
  · simp only [IsUtcFieldsOf] at hutc ⊢
    have hm : 1000 * (m / 1000) / 1000 = m / 1000 := by omega
    rw [hm] at hutc
    exact hutc

/-- C14 (the code at the failing input): bound from the date whose time value
is -500 ms, the slot holds 1970-01-01 00:00:00, which is not the UTC calendar
reading of that instant; the instant lies in 1969-12-31 23:59:59. -/
theorem BindParamsSync_date_before_epoch :
    (BindParamsSync Native.success castNaN_x86_64 (preparedHandle 1)
        [.date (some (-500))]).stmt.binds.slot 0
        = some { MYSQL_BIND.zero with
                 buffer_type := MYSQL_TYPE_DATETIME,
                 buffer := .MYSQL_TIME { year := 1970, month := 1, day := 1, hour := 0,
                                         minute := 0, second := 0 } }
      ∧ ¬ IsUtcFieldsOf (-500)
          { year := 1970, month := 1, day := 1, hour := 0, minute := 0, second := 0 }
      ∧ IsUtcFieldsOf (-500)
          { year := 1969, month := 12, day := 31, hour := 23, minute := 59, second := 59 } := by
  decide

/-! ## String columns -/

/-- For a string-family column the buffer length handed to the native bind is
the declared length itself, whatever it is. -/
theorem resultBind_string (field : MYSQL_FIELD)
    (h : field.type = MYSQL_TYPE_STRING ∨ field.type = MYSQL_TYPE_VAR_STRING
      ∨ field.type = MYSQL_TYPE_VARCHAR) :
    (resultBind field).buffer = .str_data ∧ (resultBind field).buffer_length = field.length := by
  rcases h with h | h | h <;> simp [resultBind, h]

/-- The text produced for a string-family column spans the fetched length,
as far as bytes are found from the start of the scratch row. -/
theorem columnValue_string (mktime : MYSQL_TIME → Int) (type : enum_field_types) (cell : Cell)
    (js_result : Value)
    (h : type = MYSQL_TYPE_STRING ∨ type = MYSQL_TYPE_VAR_STRING ∨ type = MYSQL_TYPE_VARCHAR) :
    columnValue mktime type cell js_result = .Utf8 (cell.str_data.take cell.length) := by
  rcases h with h | h | h <;> simp [columnValue, h]

/-- C11 (the code at the failing input): for a string column of declared length
255 the buffer length handed to the native bind is 255, above the 64 bytes of
the scratch row, and a fetched value of 70 bytes comes back as a text of 70
bytes. -/
theorem FetchAllSync_string_not_capped :
    NativeCall.mysql_stmt_bind_result
        [{ buffer_type := MYSQL_TYPE_VAR_STRING, buffer := .str_data, buffer_length := 255 }]
        ∈ (FetchAllSync (stringColumn 255 70) (preparedHandle 0)).calls
      ∧ str_data_capacity < 255
      ∧ (FetchAllSync (stringColumn 255 70) (preparedHandle 0)).outcome
        = .returned (.Array [[("name", .Utf8 (List.replicate 70 97))]])
      ∧ str_data_capacity < (List.replicate 70 97).length := by
  decide

/-! ## Text slots -/

/-- The length stored with a text slot is the UTF-16 length of the text, and
the buffer is the C-string copy of its UTF-8 bytes. -/
theorem bindParam_string (castNaN : Int) (s : String) :
    ∃ f, bindParam castNaN (.string s) = .ok f
      ∧ ∀ old, (f old).buffer_type = MYSQL_TYPE_STRING
          ∧ (f old).buffer = .chars (strdup (Utf8Value s))
          ∧ (f old).length = some (Length s) := by
  refine ⟨_, rfl, fun old => ⟨rfl, rfl, rfl⟩⟩

/-- C12 (the code at the failing input): bound from the one-character text
`é`, the slot buffer holds the two bytes of its UTF-8 encoding while the
length stored alongside is 1. -/
theorem BindParamsSync_text_length :
    (BindParamsSync Native.success castNaN_x86_64 (preparedHandle 1)
        [.string "é"]).stmt.binds.slot 0
        = some { MYSQL_BIND.zero with buffer_type := MYSQL_TYPE_STRING,
                                      buffer := .chars [195, 169], length := some 1 }
      ∧ [195, 169].length ≠ 1 := by
  decide

/-! ## Destruction -/

/-- What the destructor dispatch does with a slot the loop body has just
assigned: a slot bound from null or from a boolean falls into the last branch;
every other slot is released by the `delete` that fits its buffer. -/
theorem releaseSlot_bindParam (castNaN : Int) (v : JsValue) (f : MYSQL_BIND → MYSQL_BIND)
    (h : bindParam castNaN v = .ok f) (old : MYSQL_BIND) :
    ((v = .null ∨ ∃ b, v = .boolean b) → releaseSlot (f old) = .unrecognized)
      ∧ (¬ (v = .null ∨ ∃ b, v = .boolean b) → (releaseSlot (f old)).fits (f old)) := by
  cases v with
  | undefined => simp [bindParam, JsValue.IsUndefined] at h
  | null =>
    simp [bindParam, JsValue.IsUndefined, JsValue.IsNull] at h
    subst h
    simp [releaseSlot]
  | boolean b =>
    simp [bindParam, JsValue.IsUndefined, JsValue.IsNull, JsValue.IsInt32,
      JsValue.IsBoolean] at h
    subst h
    simp [releaseSlot]
  | number x =>
    cases h1 : x.isInt32 <;> cases h2 : x.isUint32 <;>
      simp [bindParam, JsValue.IsUndefined, JsValue.IsNull, JsValue.IsInt32,
        JsValue.IsBoolean, JsValue.IsUint32, JsValue.IsNumber, h1, h2] at h <;>
      subst h <;> simp [releaseSlot, Release.fits]
  | date t =>
    simp only [bindParam, JsValue.IsUndefined, JsValue.IsNull, JsValue.IsInt32,
      JsValue.IsBoolean, JsValue.IsUint32, JsValue.IsNumber, JsValue.IsDate] at h
    cases hg : gmtime_r (timeT_of castNaN (JsValue.date t).NumberValue) with
    | none => simp [hg] at h
    | some d =>
      simp [hg] at h
      subst h
      simp [releaseSlot, Release.fits]
  | string s =>
    simp [bindParam, JsValue.IsUndefined, JsValue.IsNull, JsValue.IsInt32,
      JsValue.IsBoolean, JsValue.IsUint32, JsValue.IsNumber, JsValue.IsDate] at h
    subst h
    simp [releaseSlot, Release.fits]
  | object text =>
    simp [bindParam, JsValue.IsUndefined, JsValue.IsNull, JsValue.IsInt32,
      JsValue.IsBoolean, JsValue.IsUint32, JsValue.IsNumber, JsValue.IsDate] at h
    subst h
    simp [releaseSlot, Release.fits]

/-- C13 (the code at the failing input): after binding a boolean, a null and an
integer, destruction reaches the last branch of the tag dispatch for the tiny
slot and for the null slot and releases only the integer slot; a prepared handle
that was never bound reaches it for its zeroed slot as well. -/
theorem destructor_unrecognized_tags :
    (BindParamsSync Native.success castNaN_x86_64 (preparedHandle 3)
        [.boolean true, .null, .number (.finite 7)]).outcome
        = .returned (.value (.Boolean true))
      ∧ (BindParamsSync Native.success castNaN_x86_64 (preparedHandle 3)
          [.boolean true, .null, .number (.finite 7)]).stmt.destructor
        = { releases := [.unrecognized, .unrecognized, .delete_int], fault := none,
            calls := [.mysql_stmt_free_result, .mysql_stmt_close] }
      ∧ (preparedHandle 1).destructor.releases = [.unrecognized] := by
  decide

/-! ## The stored flag -/

theorem BindParamsSync_stored (n : Native) (castNaN : Int) (stmt : MysqlStatement)
    (js_params : List JsValue) :
    (BindParamsSync n castNaN stmt js_params).stmt.stored = stmt.stored := by
  unfold BindParamsSync
  repeat' split
  all_goals rfl

theorem PrepareSync_stored (n : Native) (stmt : MysqlStatement) (query : String) :
    (PrepareSync n stmt query).stmt.stored = stmt.stored := by
  cases hg : MYSQLSTMT_MUSTBE_INITIALIZED stmt with
  | some e => simp [PrepareSync, hg, Step.guardFailed]
  | none =>
    by_cases hrc : n.mysql_stmt_prepare = 0
    · cases hd : deleteBinds stmt.binds with
      | none => simp [PrepareSync, hg, hrc, hd]
      | some binds0 => simp [PrepareSync, hg, hrc, hd]
    · simp [PrepareSync, hg, hrc]

/-- Every method other than `storeResultSync` leaves the stored flag as it was. -/
theorem run_stored_unchanged (n : Native) (castNaN : Int) (op : Operation)
    (stmt : MysqlStatement) (hop : op ≠ .storeResultSync) :
    (op.run n castNaN stmt).stmt.stored = stmt.stored := by
  cases op with
  | storeResultSync => exact absurd rfl hop
  | bindParamsSync js_params => exact BindParamsSync_stored n castNaN stmt js_params
  | prepareSync query => exact PrepareSync_stored n stmt query
  | closeSync =>
    simp only [Operation.run, CloseSync]
    repeat' split
    all_goals rfl
  | paramCount => simp only [Operation.run, ParamCountGetter]; split <;> rfl
  | affectedRowsSync => simp only [Operation.run, AffectedRowsSync]; split <;> rfl
  | attrGetSync k =>
    simp only [Operation.run, AttrGetSync]
    repeat' split
    all_goals rfl
  | attrSetSync k b u =>
    simp only [Operation.run, AttrSetSync]
    repeat' split
    all_goals rfl
  | dataSeekSync d u =>
    simp only [Operation.run, DataSeekSync]
    repeat' split
    all_goals rfl
  | errnoSync => simp only [Operation.run, ErrnoSync]; split <;> rfl
  | errorSync => simp only [Operation.run, ErrorSync]; split <;> rfl
  | executeSync => simp only [Operation.run, ExecuteSync]; split <;> rfl
  | fetchAllSync =>
    simp only [Operation.run, FetchAllSync]
    repeat' split
    all_goals rfl
  | fieldCountSync => simp only [Operation.run, FieldCountSync]; split <;> rfl
  | freeResultSync => simp only [Operation.run, FreeResultSync]; split <;> rfl
  | lastInsertIdSync => simp only [Operation.run, LastInsertIdSync]; split <;> rfl
  | numRowsSync =>
    simp only [Operation.run, NumRowsSync]
    repeat' split
    all_goals rfl
  | resetSync => simp only [Operation.run, ResetSync]; split <;> rfl
  | resultMetadataSync =>
    simp only [Operation.run, ResultMetadataSync]
    repeat' split
    all_goals rfl
  | sendLongDataSync k data => simp only [Operation.run, SendLongDataSync]; split <;> rfl
  | sqlStateSync => simp only [Operation.run, SqlStateSync]; split <;> rfl

/-- `StoreResultSync` sets the flag exactly when it returns true, and otherwise
leaves it as it was. -/
theorem StoreResultSync_stored (n : Native) (stmt : MysqlStatement) :
    ((StoreResultSync n stmt).outcome = .returned (.value (.Boolean true)) →
        (StoreResultSync n stmt).stmt.stored = true)
      ∧ ((StoreResultSync n stmt).outcome ≠ .returned (.value (.Boolean true)) →
        (StoreResultSync n stmt).stmt = stmt) := by
  cases hg : initializedAndPrepared stmt with
  | some e => simp [StoreResultSync, hg, Step.guardFailed]
  | none =>
    by_cases hrc : n.mysql_stmt_store_result = 0
    · simp [StoreResultSync, hg, hrc]
    · simp [StoreResultSync, hg, hrc]

/-- Over any sequence of methods a set flag stays set. -/
theorem runAll_stored (castNaN : Int) :
    ∀ (ops : List (Native × Operation)) (stmt : MysqlStatement), stmt.stored = true →
      (runAll castNaN ops stmt).stored = true := by
  intro ops
  induction ops with
  | nil => intro stmt h; exact h
  | cons head rest ih =>
    intro stmt h
    apply ih
    show (head.2.run head.1 castNaN stmt).stmt.stored = true
    by_cases hop : head.2 = .storeResultSync
    · rw [hop]
      by_cases ht : (StoreResultSync head.1 stmt).outcome = .returned (.value (.Boolean true))
      · exact (StoreResultSync_stored head.1 stmt).1 ht
      · show (StoreResultSync head.1 stmt).stmt.stored = true
        rw [(StoreResultSync_stored head.1 stmt).2 ht]
        exact h
    · rw [run_stored_unchanged head.1 castNaN head.2 stmt hop]
      exact h

/-- C15: the stored flag is false on a fresh handle; a method run leaves it set
exactly when it was set before or the method is a `storeResultSync` that
returned true, so FreeResult, Prepare, Reset, Execute, BindParams, Close and
FetchAll never change it and a failed StoreResult leaves it as it was; once set
it stays set over any sequence of methods.  Hence the stored check passes after
a successful StoreResult followed by FreeResult or by Prepare, and after
FetchAll alone `NumRowsSync` and `DataSeekSync` still fail it. -/
theorem stored_flag_monotone (n n1 n2 : Native) (castNaN : Int) (op : Operation)
    (stmt : MysqlStatement) (my_stmt : Option Nat) (query : String)
    (ops : List (Native × Operation)) (offset_double : JsNumber) (offset_uint : Nat) :
    (MysqlStatement.new my_stmt).stored = false
      ∧ ((op.run n castNaN stmt).stmt.stored = true ↔
          stmt.stored = true
            ∨ (op = .storeResultSync
                ∧ (op.run n castNaN stmt).outcome = .returned (.value (.Boolean true))))
      ∧ (stmt.stored = true → (runAll castNaN ops stmt).stored = true)
      ∧ ((StoreResultSync n stmt).outcome = .returned (.value (.Boolean true)) →
          MYSQLSTMT_MUSTBE_STORED (FreeResultSync n1 (StoreResultSync n stmt).stmt).stmt = none
            ∧ MYSQLSTMT_MUSTBE_STORED
                (PrepareSync n1 (StoreResultSync n stmt).stmt query).stmt = none
            ∧ (NumRowsSync n2 (FreeResultSync n1 (StoreResultSync n stmt).stmt).stmt).outcome
                = .returned (.value (.Integer (int32_of n2.mysql_stmt_num_rows))))
      ∧ (stmt._stmt ≠ none → stmt.prepared = true → stmt.stored = false →
          (FetchAllSync n stmt).stmt.stored = false
            ∧ (NumRowsSync n1 (FetchAllSync n stmt).stmt).outcome = .thrown .notStored
            ∧ (DataSeekSync n1 (FetchAllSync n stmt).stmt offset_double offset_uint).outcome
                = .thrown .notStored) := by
  refine ⟨rfl, ?_, runAll_stored castNaN ops stmt, ?_, ?_⟩
  · by_cases hop : op = .storeResultSync
    · subst hop
      show (StoreResultSync n stmt).stmt.stored = true ↔
        stmt.stored = true ∨ (_ ∧ (StoreResultSync n stmt).outcome = _)
      by_cases ht : (StoreResultSync n stmt).outcome = .returned (.value (.Boolean true))
      · simp [(StoreResultSync_stored n stmt).1 ht, ht]
      · rw [(StoreResultSync_stored n stmt).2 ht]
        simp [ht]
    · rw [run_stored_unchanged n castNaN op stmt hop]
      simp [hop]
  · intro ht
    have hs := (StoreResultSync_stored n stmt).1 ht
    have hfree : (FreeResultSync n1 (StoreResultSync n stmt).stmt).stmt
        = (StoreResultSync n stmt).stmt := by
      simp only [FreeResultSync]
      split <;> rfl
    have hinit : initializedAndPrepared (StoreResultSync n stmt).stmt = none := by
      cases hg : initializedAndPrepared stmt with
      | some e => simp [StoreResultSync, hg, Step.guardFailed] at ht
      | none =>
        by_cases hrc : n.mysql_stmt_store_result = 0
        · simp only [StoreResultSync, hg, hrc]
          simpa [initializedAndPrepared, MYSQLSTMT_MUSTBE_INITIALIZED,
            MYSQLSTMT_MUSTBE_PREPARED] using hg
        · simp [StoreResultSync, hg, hrc] at ht
    refine ⟨?_, ?_, ?_⟩
    · rw [hfree]; simp [MYSQLSTMT_MUSTBE_STORED, hs]
    · simp [MYSQLSTMT_MUSTBE_STORED, PrepareSync_stored, hs]
    · rw [hfree]
      simp [NumRowsSync, hinit, MYSQLSTMT_MUSTBE_STORED, hs]
  · intro hinit hprep hst
    have hg := guards_pass stmt hinit hprep
    have hfetch : (FetchAllSync n stmt).stmt = stmt := by
      simp only [FetchAllSync]
      repeat' split
      all_goals rfl
    rw [hfetch]
    refine ⟨hst, ?_, ?_⟩
    · simp [NumRowsSync, hg, MYSQLSTMT_MUSTBE_STORED, hst, Step.guardFailed]
    · simp [DataSeekSync, hg, MYSQLSTMT_MUSTBE_STORED, hst, Step.guardFailed]

theorem stored_flag_monotone_witness :
    (runAll 0 [(Native.success, .freeResultSync), (Native.success, .prepareSync "SELECT 1")]
        storedHandle).stored = true
      ∧ (MYSQLSTMT_MUSTBE_STORED
            (FreeResultSync Native.success
              (StoreResultSync Native.success (preparedHandle 0)).stmt).stmt = none
          ∧ MYSQLSTMT_MUSTBE_STORED
              (PrepareSync Native.success
                (StoreResultSync Native.success (preparedHandle 0)).stmt "SELECT 1").stmt = none
          ∧ (NumRowsSync (rowCount 3)
              (FreeResultSync Native.success
                (StoreResultSync Native.success (preparedHandle 0)).stmt).stmt).outcome
              = .returned (.value (.Integer (int32_of (rowCount 3).mysql_stmt_num_rows))))
      ∧ ((FetchAllSync Native.success (preparedHandle 0)).stmt.stored = false
          ∧ (NumRowsSync Native.success
              (FetchAllSync Native.success (preparedHandle 0)).stmt).outcome
              = .thrown .notStored
          ∧ (DataSeekSync Native.success
              (FetchAllSync Native.success (preparedHandle 0)).stmt (.finite 0) 0).outcome
              = .thrown .notStored) :=
  ⟨(stored_flag_monotone Native.success Native.success Native.success 0 .freeResultSync
      storedHandle none "SELECT 1"
      [(Native.success, .freeResultSync), (Native.success, .prepareSync "SELECT 1")]
      (.finite 0) 0).2.2.1 (by decide),
   (stored_flag_monotone Native.success Native.success (rowCount 3) 0 .freeResultSync
      (preparedHandle 0) none "SELECT 1" [] (.finite 0) 0).2.2.2.1 (by decide),
   (stored_flag_monotone Native.success Native.success Native.success 0 .freeResultSync
      (preparedHandle 0) none "SELECT 1" [] (.finite 0) 0).2.2.2.2
      (by decide) (by decide) (by decide)⟩

/-! ## Text of ASCII characters -/

theorem utf8_of_ascii (l : List Char) (h : ∀ c ∈ l, c.toNat < 128) :
    (l.map (fun c => utf8EncodeChar c.toNat)).flatten = l.map Char.toNat := by
  induction l with
  | nil => rfl
  | cons c rest ih =>
    have hc : c.toNat < 128 := h c (by simp)
    have hr := ih (fun d hd => h d (by simp [hd]))
    have he : utf8EncodeChar c.toNat = [c.toNat] := by simp only [utf8EncodeChar, if_pos hc]
    simp only [List.map_cons, List.flatten_cons, hr, he]
    rfl

theorem utf16_of_ascii (l : List Char) (h : ∀ c ∈ l, c.toNat < 128) :
    (l.map (fun c => if c.toNat < 65536 then 1 else 2)).sum = l.length := by
  induction l with
  | nil => rfl
  | cons c rest ih =>
    have hc : c.toNat < 65536 := by have := h c (by simp); omega
    have hr := ih (fun d hd => h d (by simp [hd]))
    simp only [List.map_cons, List.sum_cons, hr, if_pos hc, List.length_cons]
    omega

/-- For a text of ASCII characters other than NUL the stored length is the
number of bytes copied into the buffer. -/
theorem ascii_text_length (s : String) (h : ∀ c ∈ s.toList, 0 < c.toNat ∧ c.toNat < 128) :
    (strdup (Utf8Value s)).length = Length s := by
  have hu := utf8_of_ascii s.toList (fun c hc => (h c hc).2)
  have hl := utf16_of_ascii s.toList (fun c hc => (h c hc).2)
  have hn : 0 ∉ Utf8Value s := by
    simp only [Utf8Value, hu, List.mem_map, not_exists, not_and]
    intro c hc h0
    have := (h c hc).1
    omega
  rw [strdup_of_no_nul _ hn]
  simp only [Length, hl, Utf8Value, hu, List.length_map]

end MysqlStmt
